import Mathlib

/-!
# WalkingSim: scene loader and renderer frame pipeline

A shallow embedding of `src/utils/SceneLoader.hpp` and `src/renderer/Renderer.cpp`.

* Text is `List Char`; a file is the list of lines `getline` yields.
* Floating point numbers are an abstract type `α`; the only operations the
  embedded code performs on them are reading (`atof`), printing (`operator<<`)
  and, for the frame clock, addition.
* Pointers to meshes are `Option MeshRef` (`none` is `nullptr`).
* OpenGL, SDL and the debug overlay are observed through the sequence of
  calls the code issues (`GLCall`).
-/

namespace WalkingSim

/-! ## Data model -/

/-- The glm `vec3`. -/
structure Vec3 (α : Type) where
  x : α
  y : α
  z : α
deriving DecidableEq, Repr

/-- The glm `quat`. -/
structure Quat (α : Type) where
  x : α
  y : α
  z : α
  w : α
deriving DecidableEq, Repr

/-- What a `Mesh*` can point to: one of the shared built-in primitives handed out by
`Mesh::get_cube()`, `Mesh::get_quad()`, `Mesh::get_sphere()`, or any other mesh object. -/
inductive MeshRef where
  | cube
  | quad
  | sphere
  | other (id : Nat)
deriving DecidableEq, Repr

/-- The fields of a `Mesh` that the draw dispatch reads: `topology`, `vertex_count`
and `indices.size()`. -/
structure Mesh where
  topology : Nat
  vertex_count : Nat
  indices_size : Nat
deriving DecidableEq, Repr

/-- An `Entity`: the five fields the loader writes and the renderer reads. -/
structure Entity (α : Type) where
  name : List Char
  mesh : Option MeshRef
  position : Vec3 α
  scale : Vec3 α
  rotation : Quat α
deriving DecidableEq, Repr

/-- The entity pool `God::entities` / `Engine::entities`: a fixed sequence of slots, each
empty (`nullptr`) or holding an entity. Its `capacity` is the number of slots. -/
abbrev Arena (α : Type) := List (Option (Entity α))

/-- The `entities.capacity` field. -/
def Arena.capacity {α : Type} (a : Arena α) : Nat := a.length

/-- The `entities[i]` access: the occupant of slot `i`, or `none` for `nullptr`. -/
def Arena.at {α : Type} (a : Arena α) (i : Nat) : Option (Entity α) := (a.get? i).join

/-- The occupants of an arena in slot order. -/
def Arena.occupants {α : Type} (a : Arena α) : List (Entity α) := a.filterMap id

/-! ## Text helpers -/

/-- The C `isspace` in the "C" locale. -/
def isspace (c : Char) : Bool :=
  c = ' ' || c = '\t' || c = '\n' || c = '\x0b' || c = '\x0c' || c = '\r'

/-- The C library `atof(s)`, i.e. `strtod(s, NULL)`: leading white space is skipped and the
longest initial numeric text is converted. Numeric text never contains white space, so the
result is determined by the run of non-space characters that follows the leading white
space; `strtod_token` is the conversion of such a run. -/
def atof {α : Type} (strtod_token : List Char → α) (s : List Char) : α :=
  strtod_token ((s.dropWhile isspace).takeWhile (fun c => !isspace c))

/-- The `std::string::substr(pos, len)` for `pos ≤ size`. -/
def substr (s : List Char) (pos len : Nat) : List Char := (s.drop pos).take len

/-- The glm `vec3()` default value as the loader relies on it. -/
def Vec3.default {α : Type} [Zero α] : Vec3 α := ⟨0, 0, 0⟩

/-- Component assignment `v[i] = a`. -/
def Vec3.set {α : Type} (v : Vec3 α) (i : Nat) (a : α) : Vec3 α :=
  match i with
  | 0 => { v with x := a }
  | 1 => { v with y := a }
  | 2 => { v with z := a }
  | _ => v

/-! ## SceneLoader -/

/-- The `for` loop of `SceneLoader::_read_vec3`, started at index `i` with the locals
`v`, `last`, `vi`; `fuel` bounds the number of iterations still to run. -/
def _read_vec3_loop {α : Type} (strtod_token : List Char → α) (line : List Char) :
    Nat → Nat → Vec3 α → Nat → Nat → Vec3 α
  | 0, _, v, _, _ => v
  | fuel + 1, i, v, last, vi =>
    if i < line.length then
      if line.get? i = some ' ' then
        let v1 := v.set vi (atof strtod_token (substr line last (i - last)))
        let vi1 := vi + 1
        let last1 := i
        if vi1 = 3 - 1 then
          v1.set vi1 (atof strtod_token (substr line last1 (line.length - last1)))
        else
          _read_vec3_loop strtod_token line fuel (i + 1) v1 last1 vi1
      else
        _read_vec3_loop strtod_token line fuel (i + 1) v last vi
    else v

/-- The function `SceneLoader::_read_vec3`. -/
def _read_vec3 {α : Type} [Zero α] (strtod_token : List Char → α) (line : List Char) : Vec3 α :=
  _read_vec3_loop strtod_token line line.length 0 Vec3.default 0 0

/-- A small numeric reader used to run the loader on concrete text: the value of an
optionally signed run of decimal digits, `0` for anything else. -/
def intToken (s : List Char) : Int :=
  let digits (t : List Char) : Option Nat :=
    if t.all Char.isDigit && !t.isEmpty then
      some (t.foldl (fun n c => 10 * n + (c.toNat - '0'.toNat)) 0)
    else none
  match s with
  | '-' :: t => match digits t with
    | some n => - (n : Int)
    | none => 0
  | t => match digits t with
    | some n => (n : Int)
    | none => 0

/-- The function `SceneLoader::_read_type`: the mesh pointer for a type name. -/
def _read_type (line : List Char) : Option MeshRef :=
  if line = "Cube".toList then some MeshRef.cube
  else if line = "Quad".toList then some MeshRef.quad
  else if line = "Sphere".toList then some MeshRef.sphere
  else none

/-- Where `Renderer::instance->camera->entity` points: into a slot of the entity pool, or
to a dedicated entity object outside the pool. `Camera.hpp` is not part of the sources at
hand, so both are admitted. -/
inductive CameraEntity (α : Type) where
  | slot (i : Nat)
  | own (e : Entity α)
deriving DecidableEq, Repr

/-- The state the loader acts on: the pool `God::entities` and the camera's entity. -/
structure World (α : Type) where
  entities : Arena α
  camera_entity : CameraEntity α
deriving DecidableEq, Repr

/-- The entity the camera pointer designates, when it designates one. -/
def World.camera {α : Type} (w : World α) : Option (Entity α) :=
  match w.camera_entity with
  | CameraEntity.slot i => w.entities.at i
  | CameraEntity.own e => some e

/-- The parts of the pool implementation that are not in the sources at hand: which empty
slot `create()` hands out, and the value of a default-constructed `Entity`. -/
structure Pool (α : Type) where
  alloc : Arena α → Option Nat
  fresh : Entity α

/-- Modelled from the spec: the pool's `create()` (its source is absent). It returns a slot
that is empty at call time and marks it live with a default-constructed entity; it fails
(`none`) when the pool hands out no such slot, in particular when no slot is empty. -/
def Arena.create {α : Type} (P : Pool α) (a : Arena α) : Option (Nat × Arena α) :=
  match P.alloc a with
  | some i => if i < a.capacity ∧ (a.at i).isNone then some (i, a.set i (some P.fresh)) else none
  | none => none

/-- The lowest empty slot of a pool. -/
def Arena.first_free {α : Type} : Arena α → Option Nat
  | [] => none
  | none :: _ => some 0
  | some _ :: rest => (Arena.first_free rest).map (· + 1)

/-- The five assignments `e->name = name; ... e->rotation = rot;` of `_create_entity`. -/
def Entity.assign {α : Type} (e : Entity α) (name : List Char) (mesh : Option MeshRef)
    (pos scale : Vec3 α) (rot : Quat α) : Entity α :=
  { e with name := name, mesh := mesh, position := pos, scale := scale, rotation := rot }

/-- The function `SceneLoader::_create_entity`. `quat_cast` is the glm conversion applied by
`e->rotation = rot` (a `vec3` of Euler angles stored into a `quat`). The result is `none`
where the C++ has no defined behaviour: `create()` failed, or the camera pointer designates
an empty slot. -/
def _create_entity {α : Type} (P : Pool α) (quat_cast : Vec3 α → Quat α)
    (name : List Char) (mesh : Option MeshRef) (pos scale rot : Vec3 α)
    (w : World α) : Option (World α) :=
  if name = "Camera".toList then
    match w.camera_entity with
    | CameraEntity.own e =>
      some { w with camera_entity := CameraEntity.own (e.assign name mesh pos scale (quat_cast rot)) }
    | CameraEntity.slot i =>
      match w.entities.at i with
      | some e =>
        some { w with entities := w.entities.set i (some (e.assign name mesh pos scale (quat_cast rot))) }
      | none => none
  else
    match Arena.create P w.entities with
    | some (i, ar) =>
      match ar.at i with
      | some e =>
        some { w with entities := ar.set i (some (e.assign name mesh pos scale (quat_cast rot))) }
      | none => none
    | none => none

/-- The locals of `SceneLoader::load_scene` that live across loop iterations. -/
structure LoadLocals (α : Type) where
  l : Nat
  name : List Char
  mesh : Option MeshRef
  pos : Vec3 α
  scale : Vec3 α
  rot : Vec3 α
deriving DecidableEq, Repr

/-- The locals as declared before the loop (`mesh` is an uninitialised pointer there; it is
written at `l == 0` before it is ever read). -/
def LoadLocals.init {α : Type} [Zero α] : LoadLocals α :=
  ⟨0, [], none, Vec3.default, Vec3.default, Vec3.default⟩

/-- The test `line.size() != 0 && line.at(0) != '#'`. -/
def is_record_line (line : List Char) : Bool :=
  line.length != 0 && line.head? != some '#'

/-- One iteration of the `while (getline(file, line))` loop of `load_scene`. -/
def load_line {α : Type} [Zero α] (P : Pool α) (quat_cast : Vec3 α → Quat α)
    (strtod_token : List Char → α) (st : LoadLocals α × World α) (line : List Char) :
    Option (LoadLocals α × World α) :=
  let loc := st.1
  let w := st.2
  if is_record_line line then
    let step : Option (LoadLocals α × World α) :=
      if loc.l = 0 then
        some ({ loc with name := line, mesh := _read_type line }, w)
      else if loc.l = 1 then
        some ({ loc with pos := _read_vec3 strtod_token line }, w)
      else if loc.l = 2 then
        some ({ loc with scale := _read_vec3 strtod_token line }, w)
      else if loc.l = 3 then
        let rot := _read_vec3 strtod_token line
        (_create_entity P quat_cast loc.name loc.mesh loc.pos loc.scale rot w).map
          (fun w1 => ({ loc with rot := rot }, w1))
      else some (loc, w)
    step.map (fun s => ({ s.1 with l := (s.1.l + 1) % 4 }, s.2))
  else some (loc, w)

/-- The whole `while` loop of `load_scene` over the lines `getline` yields. -/
def load_lines {α : Type} [Zero α] (P : Pool α) (quat_cast : Vec3 α → Quat α)
    (strtod_token : List Char → α) :
    List (List Char) → LoadLocals α × World α → Option (LoadLocals α × World α)
  | [], st => some st
  | line :: rest, st =>
    match load_line P quat_cast strtod_token st line with
    | some st1 => load_lines P quat_cast strtod_token rest st1
    | none => none

/-- The function `SceneLoader::load_scene`. The file is `none` when it cannot be opened
(the code then only prints a message) and otherwise the lines `getline` yields. -/
def load_scene {α : Type} [Zero α] (P : Pool α) (quat_cast : Vec3 α → Quat α)
    (strtod_token : List Char → α) (file : Option (List (List Char))) (w : World α) :
    Option (World α) :=
  match file with
  | none => some w
  | some lines => (load_lines P quat_cast strtod_token lines (LoadLocals.init, w)).map (·.2)

/-- The lines repeated `std::getline` calls read from a text: `cur` holds the characters
of the line being read. A final line without newline is still a line; at the end of the
text with nothing read, `getline` fails and the loop stops. -/
def getlines_from : List Char → List Char → List (List Char)
  | [], cur => if cur.isEmpty then [] else [cur]
  | c :: rest, cur => if c = '\n' then cur :: getlines_from rest [] else getlines_from rest (cur ++ [c])

/-- The lines of a text file as `getline` yields them. -/
def getlines (text : List Char) : List (List Char) := getlines_from text []

/-- The loop `for (int i = 0; i < entities.capacity; i++) { Entity* e = entities[i]; ... }`
shared by `save_scene` and `Renderer::render`, collecting what the body emits for each
slot; started at index `i`, `fuel` bounding the iterations still to run. -/
def Arena.for_loop {α β : Type} (a : Arena α) (body : Option (Entity α) → List β) :
    Nat → Nat → List β
  | 0, _ => []
  | fuel + 1, i =>
    if i < a.capacity then body (a.at i) ++ Arena.for_loop a body fuel (i + 1) else []

/-- What `file << v.x << " " << v.y << " " << v.z << " \n"` writes; `fmt` is the text
`operator<<` produces for a number. -/
def write_vec3 {α : Type} (fmt : α → List Char) (x y z : α) : List Char :=
  fmt x ++ ' ' :: fmt y ++ ' ' :: fmt z ++ [' ', '\n']

/-- The four lines `save_scene` writes for one entity. -/
def write_entity {α : Type} (fmt : α → List Char) (e : Entity α) : List Char :=
  e.name ++ ['\n']
    ++ write_vec3 fmt e.position.x e.position.y e.position.z
    ++ write_vec3 fmt e.scale.x e.scale.y e.scale.z
    ++ write_vec3 fmt e.rotation.x e.rotation.y e.rotation.z

/-- The function `SceneLoader::save_scene`: the text written to the (opened) file. -/
def save_scene {α : Type} (fmt : α → List Char) (entities : Arena α) : List Char :=
  entities.for_loop (fun e => match e with
    | some e => write_entity fmt e
    | none => []) entities.capacity 0

/-- A scene record: the arguments of one `_create_entity` call. -/
structure Descriptor (α : Type) where
  name : List Char
  mesh : Option MeshRef
  pos : Vec3 α
  scale : Vec3 α
  rot : Vec3 α
deriving DecidableEq, Repr

/-- The records of the scene format as the spec words them: the record lines taken four
at a time as type name, position, scale and rotation; an incomplete trailing group gives
no record. -/
def spec_records {α : Type} [Zero α] (strtod_token : List Char → α) :
    List (List Char) → List (Descriptor α)
  | n :: p :: s :: r :: rest =>
    ⟨n, _read_type n, _read_vec3 strtod_token p, _read_vec3 strtod_token s,
      _read_vec3 strtod_token r⟩ :: spec_records strtod_token rest
  | _ => []

/-- The `_create_entity` calls for a list of records, made in order on the state. -/
def create_all {α : Type} (P : Pool α) (quat_cast : Vec3 α → Quat α) :
    List (Descriptor α) → World α → Option (World α)
  | [], w => some w
  | d :: ds, w =>
    match _create_entity P quat_cast d.name d.mesh d.pos d.scale d.rot w with
    | some w1 => create_all P quat_cast ds w1
    | none => none

/-- The record built from four lines: type name, position, scale, rotation. -/
def record_of {α : Type} [Zero α] (strtod_token : List Char → α) (n p s r : List Char) :
    Descriptor α :=
  ⟨n, _read_type n, _read_vec3 strtod_token p, _read_vec3 strtod_token s,
    _read_vec3 strtod_token r⟩

/-- The line `save_scene` writes for a vector, without its newline. -/
def vec3_line {α : Type} (fmt : α → List Char) (x y z : α) : List Char :=
  fmt x ++ ' ' :: fmt y ++ ' ' :: fmt z ++ [' ']

/-- The four lines of one saved entity. -/
def entity_lines {α : Type} (fmt : α → List Char) (e : Entity α) : List (List Char) :=
  [e.name,
   vec3_line fmt e.position.x e.position.y e.position.z,
   vec3_line fmt e.scale.x e.scale.y e.scale.z,
   vec3_line fmt e.rotation.x e.rotation.y e.rotation.z]

/-- A printed number that cannot be taken for a separator, a line end or a comment. -/
def plain_token (t : List Char) : Bool :=
  t.all (fun c => c != ' ' && c != '\n' && c != '#')

/-- The entities whose saved record reads back as one record creating one pool entry: the
name is a record line of its own (not empty, no leading `#`, no newline inside), is not
the camera's name, and the nine numbers print as plain tokens. -/
def savable {α : Type} (fmt : α → List Char) (e : Entity α) : Bool :=
  is_record_line e.name && !e.name.contains '\n' && e.name != "Camera".toList
    && plain_token (fmt e.position.x) && plain_token (fmt e.position.y)
    && plain_token (fmt e.position.z)
    && plain_token (fmt e.scale.x) && plain_token (fmt e.scale.y) && plain_token (fmt e.scale.z)
    && plain_token (fmt e.rotation.x) && plain_token (fmt e.rotation.y)
    && plain_token (fmt e.rotation.z)

/-- A vector printed by `save_scene` and read back by `_read_vec3`. -/
def reread {α : Type} (strtod_token : List Char → α) (fmt : α → List Char) (v : Vec3 α) : Vec3 α :=
  ⟨atof strtod_token (fmt v.x), atof strtod_token (fmt v.y), atof strtod_token (fmt v.z)⟩

/-- The entity a record's five assignments produce. -/
def Descriptor.entity {α : Type} (quat_cast : Vec3 α → Quat α) (d : Descriptor α) : Entity α :=
  ⟨d.name, d.mesh, d.pos, d.scale, quat_cast d.rot⟩

/-- The entity `load_scene` rebuilds from the saved record of `e`, its rotation apart:
name and mesh from the type line, position and scale as re-read. -/
def reloads_as {α : Type} (strtod_token : List Char → α) (fmt : α → List Char)
    (e e1 : Entity α) : Prop :=
  e1.name = e.name ∧ e1.mesh = _read_type e.name
    ∧ e1.position = reread strtod_token fmt e.position
    ∧ e1.scale = reread strtod_token fmt e.scale

/-- The record `load_scene` builds from the four saved lines of `e`. -/
def saved_record {α : Type} (strtod_token : List Char → α) (fmt : α → List Char)
    (e : Entity α) : Descriptor α :=
  ⟨e.name, _read_type e.name, reread strtod_token fmt e.position,
    reread strtod_token fmt e.scale,
    reread strtod_token fmt ⟨e.rotation.x, e.rotation.y, e.rotation.z⟩⟩

/-- A small number printer used to run `save_scene` on concrete data. -/
def intFmt (n : Int) : List Char :=
  match n with
  | Int.ofNat m => (Nat.toDigits 10 m)
  | Int.negSucc m => '-' :: Nat.toDigits 10 (m + 1)

/-- A pool whose `create()` hands out the lowest empty slot, over integer coordinates;
used to run the loader on concrete scenes. -/
def lowestSlotPool : Pool Int :=
  ⟨Arena.first_free, ⟨[], none, ⟨0, 0, 0⟩, ⟨1, 1, 1⟩, ⟨0, 0, 0, 1⟩⟩⟩

/-- A stand-in for the glm Euler-angle conversion over integer coordinates; it maps the
zero angles to the identity quaternion. -/
def intQuatCast (v : Vec3 Int) : Quat Int := ⟨v.x, v.y, v.z, 1⟩

/-- A cube entity at (0, 0, -5). -/
def cubeEntity : Entity Int :=
  ⟨"Cube".toList, some MeshRef.cube, ⟨0, 0, -5⟩, ⟨1, 1, 1⟩, ⟨0, 0, 0, 1⟩⟩

/-- A sphere entity. -/
def sphereEntity : Entity Int :=
  ⟨"Sphere".toList, some MeshRef.sphere, ⟨12, -7, 3⟩, ⟨2, 2, 2⟩, ⟨0, 0, 0, 1⟩⟩

/-- The camera's entity. -/
def cameraEntity : Entity Int :=
  ⟨"Camera".toList, none, ⟨0, 0, 0⟩, ⟨1, 1, 1⟩, ⟨0, 0, 0, 1⟩⟩

/-- A world whose camera entity lives in slot 0 of the pool, next to a cube. -/
def pooledCameraWorld : World Int :=
  ⟨[some cameraEntity, some cubeEntity, none], CameraEntity.slot 0⟩

/-- A world whose camera entity is a dedicated object outside the pool. -/
def ownCameraWorld : World Int :=
  ⟨[some cubeEntity, none, none], CameraEntity.own cameraEntity⟩

/-- A world whose pool has no empty slot left. -/
def fullPoolWorld : World Int :=
  ⟨[some cubeEntity, some sphereEntity], CameraEntity.own cameraEntity⟩

/-- The non-empty tokens a line splits into at spaces. -/
def space_tokens (line : List Char) : List (List Char) :=
  (line.splitOn ' ').filter (fun t => !t.isEmpty)

/-! ## Renderer -/

/-- The enumerators of `Shader::Uniform_Type` that `Renderer::initialize` uses. -/
inductive UniformType where
  | Mat4
  | Mat3
  | Vec4
  | Texture
  | Float
deriving DecidableEq, Repr

/-- The value categories of the `Shader::set_uniform` calls in `Renderer::render`: a 4x4
matrix, a 3x3 matrix, a 4-vector, a texture with its unit, a float. The numeric payloads
are floating point and left out. -/
inductive UniformValue where
  | mat4
  | mat3
  | vec4
  | texture (id : Nat) (unit : Nat)
  | float
deriving DecidableEq, Repr

/-- The uniform type a value category needs. -/
def UniformValue.type : UniformValue → UniformType
  | UniformValue.mat4 => UniformType.Mat4
  | UniformValue.mat3 => UniformType.Mat3
  | UniformValue.vec4 => UniformType.Vec4
  | UniformValue.texture _ _ => UniformType.Texture
  | UniformValue.float => UniformType.Float

/-- A `Shader`: its GPU program and its registry of declared uniforms. -/
structure Shader where
  program_id : Nat
  uniforms : List (String × UniformType)
deriving DecidableEq, Repr

/-- Modelled from the spec: the `Shader` constructor (`Shader.cpp` is absent). A new shader
owns its program and has no uniform declared yet. -/
def Shader.create (program_id : Nat) : Shader := ⟨program_id, []⟩

/-- Modelled from the spec: `Shader::init_uniform(name, type)` (`Shader.cpp` is absent)
registers a uniform slot under the name with the declared type. -/
def Shader.init_uniform (sh : Shader) (name : String) (ty : UniformType) : Shader :=
  { sh with uniforms := sh.uniforms ++ [(name, ty)] }

/-- Modelled from the spec: the contract of `Shader::set_uniform(name, value)`
(`Shader.cpp` is absent): the name is declared and its declared type is the one the
value's category needs. -/
def Shader.accepts (sh : Shader) (name : String) (v : UniformValue) : Bool :=
  sh.uniforms.lookup name == some v.type

/-- The two shader members of `Renderer`. -/
inductive ShaderSel where
  | shader
  | screen_shader
deriving DecidableEq, Repr

/-- The calls `Renderer::initialize` and `Renderer::render` issue to OpenGL, SDL, GLEW, the
shader and mesh objects, the debug overlay and `stderr`, with the arguments the claims
are about. -/
inductive GLCall where
  | cerr_multiple_instances
  | fprintf_stderr_glew_error (err : Nat)
  | SDL_GL_CreateContext
  | glewInit
  | glClearColor
  | new_Shader (s : ShaderSel)
  | init_uniform (s : ShaderSel) (name : String) (ty : UniformType)
  | glGenFramebuffers
  | glBindFramebuffer (id : Nat)
  | glGenTextures
  | glBindTexture (id : Nat)
  | glTexImage2D (w h : Int)
  | glTexParameteri
  | glGenRenderbuffers
  | glBindBuffer (id : Nat)
  | glRenderbufferStorage (w h : Int)
  | glFramebufferRenderbuffer (id : Nat)
  | glFramebufferTexture (id : Nat)
  | glDrawBuffers
  | glEnable_DEPTH_TEST
  | glDisable_DEPTH_TEST
  | glClear
  | glUseProgram (id : Nat)
  | set_uniform (s : ShaderSel) (name : String) (v : UniformValue)
  | mesh_bind (m : MeshRef)
  | glDrawArrays (mode : Nat) (first : Int) (count : Int)
  | glDrawElements (mode : Nat) (count : Int)
  | glViewport (x y w h : Int)
  | debug_render
  | SDL_GL_SwapWindow
deriving DecidableEq, Repr

/-- The fields of `Camera` that `Renderer::render` reads directly. The projection and view
transforms are floating point matrices and left out. -/
structure Camera where
  viewport_w : Int
  viewport_h : Int
deriving DecidableEq, Repr

/-- The `Camera` member functions `Renderer` calls, whose source (`Camera.cpp`) is absent:
what they do to the camera is a parameter of the embedding. -/
structure CameraOps where
  set_viewport : Camera → Int → Int → Int → Int → Camera
  set_perspective_projection : Camera → Camera

/-- The members of `Renderer`. -/
structure Renderer (α : Type) where
  screen_width : Int
  screen_height : Int
  camera : Camera
  shader : Shader
  screen_shader : Shader
  framebuffer : Nat
  rendered_texture : Nat
  depth_texture : Nat
  depth_renderbuffer : Nat
  time : α
deriving DecidableEq, Repr

/-- The shader object a selector designates. -/
def Renderer.select {α : Type} (r : Renderer α) : ShaderSel → Shader
  | ShaderSel.shader => r.shader
  | ShaderSel.screen_shader => r.screen_shader

/-- Modelled from the spec: `Shader::use()` (`Shader.cpp` is absent) binds the shader's
program as the current one. -/
def Shader.use (sh : Shader) : GLCall := GLCall.glUseProgram sh.program_id

/-- The C cast `(int) n` of an unsigned size. -/
def int_cast (n : Nat) : Int :=
  if n % 2 ^ 32 < 2 ^ 31 then ((n % 2 ^ 32 : Nat) : Int) else ((n % 2 ^ 32 : Nat) : Int) - 2 ^ 32

/-- The draw dispatch shared by the scene pass and the screen pass: non-indexed when the
index count is zero, indexed otherwise. -/
def draw_call (m : Mesh) : GLCall :=
  if int_cast m.indices_size = 0 then
    GLCall.glDrawArrays m.topology 0 m.vertex_count
  else
    GLCall.glDrawElements m.topology (int_cast m.indices_size)

/-- The body of the `//draw scene` loop of `Renderer::render` for one slot. -/
def scene_pass_body {α : Type} (meshes : MeshRef → Mesh) (e : Option (Entity α)) :
    List GLCall :=
  match e with
  | some e =>
    match e.mesh with
    | some m =>
      [GLCall.set_uniform ShaderSel.shader "model" UniformValue.mat4,
       GLCall.set_uniform ShaderSel.shader "normal_matrix" UniformValue.mat3,
       GLCall.set_uniform ShaderSel.shader "color" UniformValue.vec4,
       GLCall.mesh_bind m,
       draw_call (meshes m)]
    | none => []
  | none => []

/-- The `//draw scene` loop of `Renderer::render`. -/
def scene_pass {α : Type} (meshes : MeshRef → Mesh) (entities : Arena α) : List GLCall :=
  entities.for_loop (scene_pass_body meshes) entities.capacity 0

/-- The function `Renderer::render`: the renderer after the frame and the calls issued, in
order. `window_size` is what `SDL_GetWindowSize` reports, `meshes` the mesh objects the
pointers designate. The view transform assigned to the camera and the matrices passed to
`set_uniform` are floating point values and appear only as value categories. -/
def Renderer.render {α : Type} [Add α] (ops : CameraOps) (meshes : MeshRef → Mesh)
    (window_size : Int × Int) (entities : Arena α) (r : Renderer α) (delta_time : α) :
    Renderer α × List GLCall :=
  let camera := ops.set_perspective_projection
    (ops.set_viewport r.camera 0 0 window_size.1 window_size.2)
  let time := r.time + delta_time
  ({ r with camera := camera, time := time },
   [GLCall.glBindFramebuffer r.framebuffer,
    GLCall.glEnable_DEPTH_TEST,
    GLCall.glClearColor,
    GLCall.glClear,
    GLCall.glUseProgram r.shader.program_id,
    GLCall.set_uniform ShaderSel.shader "view" UniformValue.mat4,
    GLCall.set_uniform ShaderSel.shader "projection" UniformValue.mat4]
   ++ scene_pass meshes entities
   ++ [r.screen_shader.use,
       GLCall.set_uniform ShaderSel.screen_shader "rendered_texture"
         (UniformValue.texture r.rendered_texture 0),
       GLCall.set_uniform ShaderSel.screen_shader "time" UniformValue.float,
       GLCall.glDisable_DEPTH_TEST,
       GLCall.glBindFramebuffer 0,
       GLCall.glViewport 0 0 camera.viewport_w camera.viewport_h,
       GLCall.mesh_bind MeshRef.quad,
       draw_call (meshes MeshRef.quad),
       GLCall.debug_render,
       GLCall.SDL_GL_SwapWindow])

/-- What `Renderer::initialize` gets from its surroundings: whether an instance is already
registered, the result of `glewInit` (`0` is `GLEW_OK`), the program ids of the two new
shaders (`0` when the program could not be created), the new `Camera`, and the names the
`glGen*` calls write (`none` when the call fails and leaves the field as it was). -/
structure InitEnv where
  instance_set : Bool
  glew_err : Nat
  shader_program : Nat
  screen_program : Nat
  new_camera : Camera
  gen_framebuffer : Option Nat
  gen_rendered_texture : Option Nat
  gen_depth_texture : Option Nat
  gen_depth_renderbuffer : Option Nat
deriving DecidableEq, Repr

/-- Some GPU resource creation step failed: the graphics loader, a shader program, the
framebuffer or a texture. -/
def InitEnv.resource_creation_failed (env : InitEnv) : Bool :=
  env.glew_err != 0 || env.shader_program == 0 || env.screen_program == 0
    || env.gen_framebuffer.isNone || env.gen_rendered_texture.isNone
    || env.gen_depth_texture.isNone || env.gen_depth_renderbuffer.isNone

/-- What `Renderer::initialize` leaves behind: the renderer's members, whether
`Renderer::instance` designates it, and the calls issued, in order. -/
structure InitResult (α : Type) where
  renderer : Renderer α
  instance_registered : Bool
  calls : List GLCall

/-- The function `Renderer::initialize`, run on the renderer object `self`. It is straight
line code: the only result it tests is that of `glewInit`, to print a message. The members
`window` and `glcontext` play no part in the claims and are left out. -/
def Renderer.initialize {α : Type} (ops : CameraOps) (env : InitEnv)
    (screen_width screen_height : Int) (self : Renderer α) : InitResult α :=
  let camera := ops.set_perspective_projection
    (ops.set_viewport env.new_camera 0 0 screen_width screen_height)
  let shader := ((((Shader.create env.shader_program).init_uniform "model" UniformType.Mat4
    ).init_uniform "view" UniformType.Mat4
    ).init_uniform "projection" UniformType.Mat4
    ).init_uniform "normal_matrix" UniformType.Mat3
    |>.init_uniform "color" UniformType.Vec4
  let screen_shader := ((Shader.create env.screen_program
    ).init_uniform "rendered_texture" UniformType.Texture
    ).init_uniform "time" UniformType.Float
  let framebuffer := env.gen_framebuffer.getD self.framebuffer
  let rendered_texture := env.gen_rendered_texture.getD self.rendered_texture
  let depth_texture := env.gen_depth_texture.getD self.depth_texture
  let depth_renderbuffer := env.gen_depth_renderbuffer.getD self.depth_renderbuffer
  { renderer :=
      { self with
        screen_width := screen_width, screen_height := screen_height, camera := camera,
        shader := shader, screen_shader := screen_shader, framebuffer := framebuffer,
        rendered_texture := rendered_texture, depth_texture := depth_texture,
        depth_renderbuffer := depth_renderbuffer },
    instance_registered := true,
    calls :=
      (if env.instance_set then [GLCall.cerr_multiple_instances] else [])
      ++ [GLCall.SDL_GL_CreateContext, GLCall.glewInit]
      ++ (if env.glew_err != 0 then [GLCall.fprintf_stderr_glew_error env.glew_err] else [])
      ++ [GLCall.glClearColor,
          GLCall.new_Shader ShaderSel.shader,
          shader.use,
          GLCall.init_uniform ShaderSel.shader "model" UniformType.Mat4,
          GLCall.init_uniform ShaderSel.shader "view" UniformType.Mat4,
          GLCall.init_uniform ShaderSel.shader "projection" UniformType.Mat4,
          GLCall.init_uniform ShaderSel.shader "normal_matrix" UniformType.Mat3,
          GLCall.init_uniform ShaderSel.shader "color" UniformType.Vec4,
          GLCall.new_Shader ShaderSel.screen_shader,
          GLCall.init_uniform ShaderSel.screen_shader "rendered_texture" UniformType.Texture,
          GLCall.init_uniform ShaderSel.screen_shader "time" UniformType.Float,
          GLCall.glGenFramebuffers,
          GLCall.glBindFramebuffer framebuffer,
          GLCall.glGenTextures,
          GLCall.glBindTexture rendered_texture,
          GLCall.glTexImage2D screen_width screen_height,
          GLCall.glTexParameteri,
          GLCall.glTexParameteri,
          GLCall.glGenTextures,
          GLCall.glBindTexture depth_texture,
          GLCall.glTexImage2D screen_width screen_height,
          GLCall.glTexParameteri,
          GLCall.glTexParameteri,
          GLCall.glGenRenderbuffers,
          GLCall.glBindBuffer depth_renderbuffer,
          GLCall.glRenderbufferStorage screen_width screen_height,
          GLCall.glFramebufferRenderbuffer depth_renderbuffer,
          GLCall.glFramebufferTexture rendered_texture,
          GLCall.glDrawBuffers] }

/-- The OpenGL state the claims about the frame refer to: the bound framebuffer, whether
depth testing is enabled, the current program and the viewport. -/
structure GLState where
  framebuffer : Nat
  depth_test : Bool
  program : Nat
  viewport : Int × Int × Int × Int
deriving DecidableEq, Repr

/-- The effect of a call on the tracked OpenGL state. Binding a mesh and setting a uniform
leave it alone; what the debug overlay does to it is the parameter `debug`. -/
def GLState.step (debug : GLState → GLState) (s : GLState) : GLCall → GLState
  | GLCall.glBindFramebuffer id => { s with framebuffer := id }
  | GLCall.glEnable_DEPTH_TEST => { s with depth_test := true }
  | GLCall.glDisable_DEPTH_TEST => { s with depth_test := false }
  | GLCall.glUseProgram id => { s with program := id }
  | GLCall.glViewport x y w h => { s with viewport := (x, y, w, h) }
  | GLCall.debug_render => debug s
  | _ => s

/-- The tracked OpenGL state after a sequence of calls. -/
def GLState.run (debug : GLState → GLState) (s : GLState) (calls : List GLCall) : GLState :=
  calls.foldl (GLState.step debug) s

/-- A draw call of the renderer. -/
def GLCall.is_draw : GLCall → Bool
  | GLCall.glDrawArrays _ _ _ => true
  | GLCall.glDrawElements _ _ => true
  | _ => false

/-- The draw calls of a call sequence, each with the OpenGL state it is issued in. -/
def draws_in_state (debug : GLState → GLState) : GLState → List GLCall → List (GLCall × GLState)
  | _, [] => []
  | s, c :: rest =>
    if c.is_draw then (c, s) :: draws_in_state debug (GLState.step debug s c) rest
    else draws_in_state debug (GLState.step debug s c) rest

/-- The scene-pass draw call the frame owes to a slot: one for an occupied slot whose
entity has a mesh, none otherwise. -/
def slot_draw {α : Type} (meshes : MeshRef → Mesh) (slot : Option (Entity α)) : Option GLCall :=
  match slot with
  | some e => e.mesh.map (fun m => draw_call (meshes m))
  | none => none

/-- The scene-pass draw calls as the spec words them: one for each slot index below the
capacity whose slot is occupied by an entity with a mesh, in ascending index order. -/
def spec_scene_draws {α : Type} (meshes : MeshRef → Mesh) (entities : Arena α) : List GLCall :=
  (List.range entities.capacity).filterMap (fun i => slot_draw meshes (entities.at i))

/-- Camera functions that store the viewport size and leave it alone otherwise. -/
def storingCameraOps : CameraOps :=
  ⟨fun c _ _ w h => { c with viewport_w := w, viewport_h := h }, fun c => c⟩

/-- The built-in meshes as data: an indexed cube, a non-indexed quad, an indexed sphere. -/
def builtinMeshes : MeshRef → Mesh
  | MeshRef.cube => ⟨4, 24, 36⟩
  | MeshRef.quad => ⟨4, 6, 0⟩
  | MeshRef.sphere => ⟨4, 256, 1440⟩
  | MeshRef.other _ => ⟨4, 3, 0⟩

/-- An initialisation in which GLEW fails and no GPU object can be created. -/
def failingInitEnv : InitEnv :=
  ⟨false, 1, 0, 0, ⟨0, 0⟩, none, none, none, none⟩

/-- A renderer object as constructed, before `initialize`. -/
def blankRenderer : Renderer Int :=
  ⟨0, 0, ⟨0, 0⟩, ⟨0, []⟩, ⟨0, []⟩, 0, 0, 0, 0, 0⟩

/-! ### Facts about `atof` and the vector reader -/

theorem atof_cons_space {α : Type} (tok : List Char → α) (s : List Char) :
    atof tok (' ' :: s) = atof tok s := by
  simp [atof, List.dropWhile, isspace]

theorem takeWhile_append_space (s : List Char) :
    (s ++ [' ']).takeWhile (fun c => !isspace c) = s.takeWhile (fun c => !isspace c) := by
  induction s with
  | nil => simp [List.takeWhile, isspace]
  | cons c s ih =>
    simp only [List.cons_append, List.takeWhile]
    cases h : (!isspace c) <;> simp [ih]

theorem atof_append_space {α : Type} (tok : List Char → α) (s : List Char) :
    atof tok (s ++ [' ']) = atof tok s := by
  unfold atof
  induction s with
  | nil => simp [List.dropWhile, List.takeWhile, isspace]
  | cons c s ih =>
    simp only [List.cons_append, List.dropWhile]
    cases h : isspace c
    · simp only
      have := takeWhile_append_space (c :: s)
      simpa using congrArg tok this
    · simpa using ih

theorem get?_append_cons (pre rest : List Char) (c : Char) :
    (pre ++ c :: rest).get? pre.length = some c := by
  rw [List.get?_eq_getElem?, List.getElem?_append_right (Nat.le_refl _)]
  simp

theorem read_vec3_loop_skip {α : Type} (tok : List Char → α) (t : List Char) :
    ∀ (pre rest : List Char), (∀ c ∈ t, c ≠ ' ') → ∀ (f : Nat) (v : Vec3 α) (last vi : Nat),
      _read_vec3_loop tok (pre ++ t ++ rest) (t.length + f) pre.length v last vi
        = _read_vec3_loop tok (pre ++ t ++ rest) f (pre.length + t.length) v last vi := by
  induction t with
  | nil => intro pre rest _ f v last vi; simp
  | cons c t ih =>
    intro pre rest ht f v last vi
    have hc : c ≠ ' ' := ht c (List.mem_cons_self _ _)
    have hlt : pre.length < (pre ++ c :: t ++ rest).length := by simp
    have hget : (pre ++ c :: t ++ rest).get? pre.length = some c := by
      rw [List.append_assoc]
      exact get?_append_cons pre (t ++ rest) c
    have hfuel : (c :: t).length + f = (t.length + f) + 1 := by simp; omega
    rw [hfuel, _read_vec3_loop]
    rw [if_pos hlt, hget, if_neg (by simpa using hc)]
    have h := ih (pre ++ [c]) rest (fun d hd => ht d (List.mem_cons_of_mem _ hd)) f v last vi
    have e : pre ++ [c] ++ t ++ rest = pre ++ c :: t ++ rest := by simp
    rw [e] at h
    simpa [Nat.add_assoc, Nat.add_comm 1] using h

theorem read_vec3_loop_space {α : Type} (tok : List Char → α) (pre rest : List Char)
    (f : Nat) (v : Vec3 α) (last vi : Nat) :
    _read_vec3_loop tok (pre ++ ' ' :: rest) (f + 1) pre.length v last vi
      = if vi + 1 = 2 then
          (v.set vi (atof tok (substr (pre ++ ' ' :: rest) last (pre.length - last)))).set (vi + 1)
            (atof tok (' ' :: rest))
        else
          _read_vec3_loop tok (pre ++ ' ' :: rest) f (pre.length + 1)
            (v.set vi (atof tok (substr (pre ++ ' ' :: rest) last (pre.length - last))))
            pre.length (vi + 1) := by
  have hlt : pre.length < (pre ++ ' ' :: rest).length := by simp
  have hget : (pre ++ ' ' :: rest).get? pre.length = some ' ' := get?_append_cons pre rest ' '
  have hsub : substr (pre ++ ' ' :: rest) pre.length ((pre ++ ' ' :: rest).length - pre.length)
      = ' ' :: rest := by
    simp [substr]
  rw [_read_vec3_loop, if_pos hlt, if_pos hget]
  simp only [hsub]

theorem substr_front (p rest : List Char) : substr (p ++ rest) 0 (p.length - 0) = p := by
  simp [substr]

theorem substr_middle (p t rest : List Char) :
    substr (p ++ t ++ rest) p.length ((p ++ t).length - p.length) = t := by
  simp [substr, List.append_assoc]

theorem read_vec3_loop_skip_of_eq {α : Type} (tok : List Char → α) (line pre t rest : List Char)
    (h : line = pre ++ t ++ rest) (ht : ∀ c ∈ t, c ≠ ' ') (f : Nat) (v : Vec3 α)
    (last vi : Nat) :
    _read_vec3_loop tok line (t.length + f) pre.length v last vi
      = _read_vec3_loop tok line f (pre.length + t.length) v last vi := by
  subst h
  exact read_vec3_loop_skip tok t pre rest ht f v last vi

theorem read_vec3_loop_space_of_eq {α : Type} (tok : List Char → α) (line pre rest : List Char)
    (h : line = pre ++ ' ' :: rest) (f : Nat) (v : Vec3 α) (last vi : Nat) :
    _read_vec3_loop tok line (f + 1) pre.length v last vi
      = if vi + 1 = 2 then
          (v.set vi (atof tok (substr line last (pre.length - last)))).set (vi + 1)
            (atof tok (' ' :: rest))
        else
          _read_vec3_loop tok line f (pre.length + 1)
            (v.set vi (atof tok (substr line last (pre.length - last))))
            pre.length (vi + 1) := by
  subst h
  exact read_vec3_loop_space tok pre rest f v last vi

/-- What `_read_vec3` returns on a line with at least two spaces, `a` and `b` being the
texts before the first and between the first and the second space. -/
theorem read_vec3_two_spaces {α : Type} [Zero α] (tok : List Char → α) (a b r : List Char)
    (ha : ∀ ch ∈ a, ch ≠ ' ') (hb : ∀ ch ∈ b, ch ≠ ' ') :
    _read_vec3 tok (a ++ ' ' :: b ++ ' ' :: r)
      = ⟨atof tok a, atof tok (' ' :: b), atof tok (' ' :: r)⟩ := by
  unfold _read_vec3
  generalize hL : a ++ ' ' :: b ++ ' ' :: r = L
  have hlen : L.length = a.length + ((b.length + (r.length + 1)) + 1) := by
    subst hL; simp only [List.length_append, List.length_cons]; omega
  have s1 := read_vec3_loop_skip_of_eq tok L [] a (' ' :: (b ++ ' ' :: r))
    (by subst hL; simp) ha ((b.length + (r.length + 1)) + 1) (Vec3.default : Vec3 α) 0 0
  have s2 := read_vec3_loop_space_of_eq tok L a (b ++ ' ' :: r)
    (by subst hL; simp) (b.length + (r.length + 1)) (Vec3.default : Vec3 α) 0 0
  have s3 := read_vec3_loop_skip_of_eq tok L (a ++ [' ']) b (' ' :: r)
    (by subst hL; simp) hb (r.length + 1)
    ((Vec3.default : Vec3 α).set 0 (atof tok (substr L 0 (a.length - 0)))) a.length 1
  have s4 := read_vec3_loop_space_of_eq tok L (a ++ ' ' :: b) r
    (by subst hL; simp) r.length
    ((Vec3.default : Vec3 α).set 0 (atof tok (substr L 0 (a.length - 0)))) a.length 1
  have e1 : substr L 0 (a.length - 0) = a := by
    subst hL; rw [List.append_assoc]; exact substr_front a _
  have e2 : substr L a.length ((a ++ ' ' :: b).length - a.length) = ' ' :: b := by
    subst hL; exact substr_middle a (' ' :: b) (' ' :: r)
  simp only [List.length_nil, Nat.zero_add] at s1
  simp only [List.length_append, List.length_singleton] at s3
  simp only [Nat.zero_add, if_neg (by decide : ¬ (1 = 2))] at s2
  simp only [if_pos (by decide : (1 + 1 = 2))] at s4
  have e3 : (a ++ ' ' :: b).length = a.length + 1 + b.length := by
    simp only [List.length_append, List.length_cons]; omega
  rw [hlen, s1, s2, s3, ← e3, s4, e1, e2]
  simp [Vec3.set, Vec3.default]

/-! ### Facts about the scene loader -/

theorem load_line_skip {α : Type} [Zero α] (P : Pool α) (qc : Vec3 α → Quat α)
    (tok : List Char → α) (st : LoadLocals α × World α) (line : List Char)
    (h : is_record_line line = false) : load_line P qc tok st line = some st := by
  simp [load_line, h]

theorem load_lines_filter {α : Type} [Zero α] (P : Pool α) (qc : Vec3 α → Quat α)
    (tok : List Char → α) (lines : List (List Char)) :
    ∀ st : LoadLocals α × World α,
      load_lines P qc tok lines st = load_lines P qc tok (lines.filter is_record_line) st := by
  induction lines with
  | nil => intro st; rfl
  | cons line rest ih =>
    intro st
    cases h : is_record_line line
    · rw [List.filter_cons_of_neg (by simp [h]), load_lines, load_line_skip P qc tok st line h]
      exact ih st
    · rw [List.filter_cons_of_pos (by simp [h]), load_lines, load_lines]
      cases load_line P qc tok st line with
      | none => rfl
      | some st1 => exact ih st1

theorem load_lines_record {α : Type} [Zero α] (P : Pool α) (qc : Vec3 α → Quat α)
    (tok : List Char → α) (n p s r : List Char) (rest : List (List Char))
    (hn : is_record_line n = true) (hp : is_record_line p = true)
    (hs : is_record_line s = true) (hr : is_record_line r = true)
    (loc : LoadLocals α) (w : World α) (hl : loc.l = 0) :
    load_lines P qc tok (n :: p :: s :: r :: rest) (loc, w)
      = match _create_entity P qc n (_read_type n) (_read_vec3 tok p) (_read_vec3 tok s)
          (_read_vec3 tok r) w with
        | some w1 => load_lines P qc tok rest
            (⟨0, n, _read_type n, _read_vec3 tok p, _read_vec3 tok s, _read_vec3 tok r⟩, w1)
        | none => none := by
  cases h : _create_entity P qc n (_read_type n) (_read_vec3 tok p) (_read_vec3 tok s)
      (_read_vec3 tok r) w <;> simp [load_lines, load_line, hn, hp, hs, hr, hl, h]

theorem load_lines_records {α : Type} [Zero α] (P : Pool α) (qc : Vec3 α → Quat α)
    (tok : List Char → α) :
    ∀ (rem : List (List Char)) (loc : LoadLocals α) (w : World α),
      (∀ x ∈ rem, is_record_line x = true) → loc.l = 0 →
      (load_lines P qc tok rem (loc, w)).map (·.2) = create_all P qc (spec_records tok rem) w
  | [], loc, w, _, _ => by simp [load_lines, spec_records, create_all]
  | [a], loc, w, hk, hl => by
    have ha := hk a (by simp)
    simp [load_lines, load_line, spec_records, create_all, ha, hl]
  | [a, b], loc, w, hk, hl => by
    have ha := hk a (by simp)
    have hb := hk b (by simp)
    simp [load_lines, load_line, spec_records, create_all, ha, hb, hl]
  | [a, b, c], loc, w, hk, hl => by
    have ha := hk a (by simp)
    have hb := hk b (by simp)
    have hc := hk c (by simp)
    simp [load_lines, load_line, spec_records, create_all, ha, hb, hc, hl]
  | n :: p :: s :: r :: rest, loc, w, hk, hl => by
    have hn := hk n (by simp)
    have hp := hk p (by simp)
    have hs := hk s (by simp)
    have hr := hk r (by simp)
    rw [load_lines_record P qc tok n p s r rest hn hp hs hr loc w hl]
    simp only [spec_records, create_all]
    cases _create_entity P qc n (_read_type n) (_read_vec3 tok p) (_read_vec3 tok s)
        (_read_vec3 tok r) w with
    | none => rfl
    | some w1 =>
      exact load_lines_records P qc tok rest _ w1
        (fun x hx => hk x (by simp [hx])) rfl

theorem spec_records_length {α : Type} [Zero α] (tok : List Char → α) :
    ∀ rem : List (List Char), (spec_records tok rem).length = rem.length / 4
  | [] => by simp [spec_records]
  | [_] => by simp [spec_records]
  | [_, _] => by simp [spec_records]
  | [_, _, _] => by simp [spec_records]
  | _ :: _ :: _ :: _ :: rest => by
    simp only [spec_records, List.length_cons, spec_records_length tok rest]
    omega

theorem spec_records_get {α : Type} [Zero α] (tok : List Char → α) :
    ∀ (rem : List (List Char)) (j : Nat), j < rem.length / 4 →
      (spec_records tok rem).get? j
        = some (record_of tok (rem.getD (4 * j) []) (rem.getD (4 * j + 1) [])
            (rem.getD (4 * j + 2) []) (rem.getD (4 * j + 3) []))
  | [], j, h => by simp at h
  | [_], j, h => by simp only [List.length_cons, List.length_nil] at h; omega
  | [_, _], j, h => by simp only [List.length_cons, List.length_nil] at h; omega
  | [_, _, _], j, h => by simp only [List.length_cons, List.length_nil] at h; omega
  | n :: p :: s :: r :: rest, 0, _ => by simp [spec_records, record_of]
  | n :: p :: s :: r :: rest, j + 1, h => by
    have hj : j < rest.length / 4 := by
      simp only [List.length_cons] at h; omega
    have ih := spec_records_get tok rest j hj
    have e0 : 4 * (j + 1) = 4 * j + 4 := by ring
    simp only [spec_records, List.get?_cons_succ, ih, e0]
    simp [List.getD_cons_succ]

/-! ### Facts about the pool and `_create_entity` -/

theorem Arena.at_eq_some {α : Type} (a : Arena α) (i : Nat) (e : Entity α) :
    a.at i = some e ↔ a.get? i = some (some e) := by
  unfold Arena.at
  cases h : a.get? i with
  | none => simp
  | some o => cases o <;> simp

theorem Arena.at_set_self {α : Type} (a : Arena α) (i : Nat) (x : Option (Entity α))
    (h : i < a.length) : Arena.at (a.set i x) i = x := by
  unfold Arena.at
  rw [List.get?_eq_getElem?, List.getElem?_set_self h]
  rfl

theorem Arena.get?_set_ne {α : Type} (a : Arena α) (i j : Nat) (x : Option (Entity α))
    (h : j ≠ i) : (a.set i x).get? j = a.get? j := by
  rw [List.get?_eq_getElem?, List.get?_eq_getElem?, List.getElem?_set_ne (Ne.symm h)]

theorem Arena.lt_of_at_eq_some {α : Type} (a : Arena α) (i : Nat) (e : Entity α)
    (h : a.at i = some e) : i < a.length := by
  rw [Arena.at_eq_some, List.get?_eq_getElem?] at h
  exact (List.getElem?_eq_some_iff.mp h).1

theorem Arena.isSome_set_occupied {α : Type} (a : Arena α) (i : Nat) (e e1 : Entity α)
    (h : a.at i = some e) :
    (a.set i (some e1)).map Option.isSome = a.map Option.isSome := by
  have hi := Arena.lt_of_at_eq_some a i e h
  rw [Arena.at_eq_some, List.get?_eq_getElem?] at h
  apply List.ext_getElem?
  intro j
  by_cases hj : j = i
  · subst hj
    rw [List.getElem?_map, List.getElem?_set_self hi, List.getElem?_map, h]
    rfl
  · rw [List.getElem?_map, List.getElem?_set_ne (Ne.symm hj), List.getElem?_map]

theorem Arena.set_set {α : Type} (a : Arena α) (i : Nat) (x y : Option (Entity α)) :
    (a.set i x).set i y = a.set i y := by
  simp

theorem camera_record_unfold {α : Type} (P : Pool α) (qc : Vec3 α → Quat α)
    (mesh : Option MeshRef) (pos scale rot : Vec3 α) (w : World α) :
    _create_entity P qc "Camera".toList mesh pos scale rot w
      = match w.camera_entity with
        | CameraEntity.own _ =>
          some { w with camera_entity :=
            CameraEntity.own ⟨"Camera".toList, mesh, pos, scale, qc rot⟩ }
        | CameraEntity.slot i =>
          match w.entities.at i with
          | some _ =>
            some { w with entities :=
              w.entities.set i (some ⟨"Camera".toList, mesh, pos, scale, qc rot⟩) }
          | none => none := by
  unfold _create_entity
  rw [if_pos rfl]
  rfl

theorem create_entity_other_eq {α : Type} (P : Pool α) (qc : Vec3 α → Quat α)
    (name : List Char) (hname : name ≠ "Camera".toList)
    (mesh : Option MeshRef) (pos scale rot : Vec3 α) (w : World α) (i : Nat)
    (halloc : P.alloc w.entities = some i) (hi : i < w.entities.length)
    (hfree : w.entities.at i = none) :
    _create_entity P qc name mesh pos scale rot w
      = some { w with entities := w.entities.set i (some ⟨name, mesh, pos, scale, qc rot⟩) } := by
  unfold _create_entity
  rw [if_neg hname]
  have hc : Arena.create P w.entities = some (i, w.entities.set i (some P.fresh)) := by
    simp [Arena.create, halloc, Arena.capacity, hi, hfree]
  rw [hc]
  simp only [Arena.at_set_self w.entities i (some P.fresh) hi, Arena.set_set]
  rfl

theorem create_isSome_iff {α : Type} (P : Pool α) (a : Arena α) :
    (Arena.create P a).isSome ↔
      ∃ i, P.alloc a = some i ∧ i < a.length ∧ a.at i = none := by
  unfold Arena.create
  cases h : P.alloc a with
  | none => simp
  | some i =>
    by_cases hc : i < a.capacity ∧ (a.at i).isNone = true
    · simp only [hc, and_self, if_true, Option.isSome_some, true_iff]
      exact ⟨i, rfl, hc.1, by simpa using hc.2⟩
    · simp only [hc, if_false, Option.isSome_none, Bool.false_eq_true, false_iff]
      rintro ⟨j, hj, hlt, hn⟩
      cases hj
      exact hc ⟨hlt, by simp [hn]⟩

/-! ### Facts about `save_scene` and `getline` -/

theorem Arena.at_append_cons {α : Type} (pre suf : Arena α) (x : Option (Entity α)) :
    Arena.at (pre ++ x :: suf) pre.length = x := by
  unfold Arena.at
  rw [List.get?_eq_getElem?, List.getElem?_append_right (Nat.le_refl _)]
  simp

theorem Arena.for_loop_suffix {α β : Type} (body : Option (Entity α) → List β)
    (suf : Arena α) :
    ∀ pre : Arena α,
      Arena.for_loop (pre ++ suf) body suf.length pre.length = (suf.map body).flatten := by
  induction suf with
  | nil => intro pre; simp [Arena.for_loop]
  | cons x suf ih =>
    intro pre
    have hlt : pre.length < Arena.capacity (pre ++ x :: suf) := by
      simp [Arena.capacity]
    have h := ih (pre ++ [x])
    have e : pre ++ [x] ++ suf = pre ++ x :: suf := by simp
    rw [e] at h
    simp only [List.length_cons, Arena.for_loop, if_pos hlt, Arena.at_append_cons,
      List.map_cons, List.flatten_cons]
    simp only [List.length_append, List.length_singleton] at h
    rw [h]

theorem Arena.for_loop_eq {α β : Type} (body : Option (Entity α) → List β) (a : Arena α) :
    Arena.for_loop a body a.capacity 0 = (a.map body).flatten := by
  have h := Arena.for_loop_suffix body a []
  simpa [Arena.capacity] using h

theorem save_scene_eq {α : Type} (fmt : α → List Char) (a : Arena α) :
    save_scene fmt a = (a.occupants.map (write_entity fmt)).flatten := by
  unfold save_scene
  rw [Arena.for_loop_eq]
  unfold Arena.occupants
  induction a with
  | nil => rfl
  | cons x a ih =>
    cases x with
    | none => simpa using ih
    | some e => simpa using ih

theorem getlines_from_line (l : List Char) :
    ∀ (cur rest : List Char), (∀ c ∈ l, c ≠ '\n') →
      getlines_from (l ++ '\n' :: rest) cur = (cur ++ l) :: getlines_from rest [] := by
  induction l with
  | nil => intro cur rest _; simp [getlines_from]
  | cons c l ih =>
    intro cur rest h
    have hc : c ≠ '\n' := h c (List.mem_cons_self _ _)
    have e : c :: l ++ '\n' :: rest = c :: (l ++ '\n' :: rest) := rfl
    rw [e, getlines_from, if_neg hc,
      ih (cur ++ [c]) rest (fun d hd => h d (List.mem_cons_of_mem _ hd))]
    simp

theorem getlines_line (l rest : List Char) (h : ∀ c ∈ l, c ≠ '\n') :
    getlines (l ++ '\n' :: rest) = l :: getlines rest := by
  unfold getlines
  rw [getlines_from_line l [] rest h]
  simp

theorem plain_token_spec (t : List Char) (h : plain_token t = true) :
    ∀ c ∈ t, c ≠ ' ' ∧ c ≠ '\n' ∧ c ≠ '#' := by
  intro c hc
  have := (List.all_eq_true.mp h) c hc
  simpa [and_assoc] using this

theorem is_record_line_vec3_line {α : Type} (fmt : α → List Char) (x y z : α)
    (hx : plain_token (fmt x) = true) : is_record_line (vec3_line fmt x y z) = true := by
  unfold vec3_line is_record_line
  cases h : fmt x with
  | nil => simp
  | cons c t =>
    have hc := (plain_token_spec (fmt x) hx c (by simp [h])).2.2
    simp [hc]

theorem vec3_line_no_newline {α : Type} (fmt : α → List Char) (x y z : α)
    (hx : plain_token (fmt x) = true) (hy : plain_token (fmt y) = true)
    (hz : plain_token (fmt z) = true) : ∀ c ∈ vec3_line fmt x y z, c ≠ '\n' := by
  intro c hc
  simp only [vec3_line, List.mem_append, List.mem_cons, List.mem_singleton,
    List.not_mem_nil, or_false] at hc
  rcases hc with ((h | h | h) | h | h) | h
  · exact (plain_token_spec _ hx c h).2.1
  · subst h; decide
  · exact (plain_token_spec _ hy c h).2.1
  · subst h; decide
  · exact (plain_token_spec _ hz c h).2.1
  · subst h; decide

theorem read_vec3_vec3_line {α : Type} [Zero α] (tok : List Char → α) (fmt : α → List Char)
    (x y z : α) (hx : plain_token (fmt x) = true) (hy : plain_token (fmt y) = true) :
    _read_vec3 tok (vec3_line fmt x y z) = reread tok fmt ⟨x, y, z⟩ := by
  have e : vec3_line fmt x y z = fmt x ++ ' ' :: fmt y ++ ' ' :: (fmt z ++ [' ']) := by
    simp [vec3_line]
  rw [e, read_vec3_two_spaces tok (fmt x) (fmt y) (fmt z ++ [' '])
    (fun c hc => (plain_token_spec _ hx c hc).1) (fun c hc => (plain_token_spec _ hy c hc).1)]
  simp [reread, atof_cons_space, atof_append_space]

theorem savable_spec {α : Type} (fmt : α → List Char) (e : Entity α)
    (h : savable fmt e = true) :
    is_record_line e.name = true ∧ (∀ c ∈ e.name, c ≠ '\n') ∧ e.name ≠ "Camera".toList
      ∧ (plain_token (fmt e.position.x) = true ∧ plain_token (fmt e.position.y) = true
          ∧ plain_token (fmt e.position.z) = true)
      ∧ (plain_token (fmt e.scale.x) = true ∧ plain_token (fmt e.scale.y) = true
          ∧ plain_token (fmt e.scale.z) = true)
      ∧ (plain_token (fmt e.rotation.x) = true ∧ plain_token (fmt e.rotation.y) = true
          ∧ plain_token (fmt e.rotation.z) = true) := by
  simp only [savable, Bool.and_eq_true, Bool.not_eq_true', bne_iff_ne, ne_eq] at h
  obtain ⟨⟨⟨⟨⟨⟨⟨⟨⟨⟨⟨h1, h2⟩, h3⟩, h4⟩, h5⟩, h6⟩, h7⟩, h8⟩, h9⟩, h10⟩, h11⟩, h12⟩ := h
  refine ⟨h1, ?_, h3, ⟨h4, h5, h6⟩, ⟨h7, h8, h9⟩, ⟨h10, h11, h12⟩⟩
  intro c hc hn
  subst hn
  have : e.name.contains '\n' = true := by
    simpa using hc
  rw [this] at h2
  exact Bool.noConfusion h2

theorem getlines_write_entity {α : Type} (fmt : α → List Char) (e : Entity α)
    (h : savable fmt e = true) (rest : List Char) :
    getlines (write_entity fmt e ++ rest) = entity_lines fmt e ++ getlines rest := by
  obtain ⟨_, hn, _, ⟨p1, p2, p3⟩, ⟨s1, s2, s3⟩, ⟨r1, r2, r3⟩⟩ := savable_spec fmt e h
  have e1 : write_entity fmt e ++ rest
      = e.name ++ '\n' :: (vec3_line fmt e.position.x e.position.y e.position.z
        ++ '\n' :: (vec3_line fmt e.scale.x e.scale.y e.scale.z
        ++ '\n' :: (vec3_line fmt e.rotation.x e.rotation.y e.rotation.z
        ++ '\n' :: rest))) := by
    simp [write_entity, write_vec3, vec3_line]
  rw [e1, getlines_line _ _ hn,
    getlines_line _ _ (vec3_line_no_newline fmt _ _ _ p1 p2 p3),
    getlines_line _ _ (vec3_line_no_newline fmt _ _ _ s1 s2 s3),
    getlines_line _ _ (vec3_line_no_newline fmt _ _ _ r1 r2 r3)]
  rfl

theorem getlines_saved {α : Type} (fmt : α → List Char) (es : List (Entity α))
    (h : ∀ e ∈ es, savable fmt e = true) :
    getlines ((es.map (write_entity fmt)).flatten) = (es.map (entity_lines fmt)).flatten := by
  induction es with
  | nil => rfl
  | cons e es ih =>
    simp only [List.map_cons, List.flatten_cons]
    rw [getlines_write_entity fmt e (h e (List.mem_cons_self _ _)),
      ih (fun x hx => h x (List.mem_cons_of_mem _ hx))]

theorem saved_lines_are_records {α : Type} (fmt : α → List Char) (es : List (Entity α))
    (h : ∀ e ∈ es, savable fmt e = true) :
    ∀ x ∈ (es.map (entity_lines fmt)).flatten, is_record_line x = true := by
  intro x hx
  simp only [List.mem_flatten, List.mem_map] at hx
  obtain ⟨ls, ⟨e, he, rfl⟩, hxl⟩ := hx
  obtain ⟨hn, _, _, ⟨p1, _, _⟩, ⟨s1, _, _⟩, ⟨r1, _, _⟩⟩ := savable_spec fmt e (h e he)
  simp only [entity_lines, List.mem_cons, List.mem_singleton, List.not_mem_nil, or_false] at hxl
  rcases hxl with rfl | rfl | rfl | rfl
  · exact hn
  · exact is_record_line_vec3_line fmt _ _ _ p1
  · exact is_record_line_vec3_line fmt _ _ _ s1
  · exact is_record_line_vec3_line fmt _ _ _ r1

theorem spec_records_saved {α : Type} [Zero α] (tok : List Char → α) (fmt : α → List Char)
    (es : List (Entity α)) (h : ∀ e ∈ es, savable fmt e = true) :
    spec_records tok ((es.map (entity_lines fmt)).flatten) = es.map (saved_record tok fmt) := by
  induction es with
  | nil => rfl
  | cons e es ih =>
    obtain ⟨_, _, _, ⟨p1, p2, _⟩, ⟨s1, s2, _⟩, ⟨r1, r2, _⟩⟩ :=
      savable_spec fmt e (h e (List.mem_cons_self _ _))
    have e0 : ((e :: es).map (entity_lines fmt)).flatten
        = e.name :: vec3_line fmt e.position.x e.position.y e.position.z
          :: vec3_line fmt e.scale.x e.scale.y e.scale.z
          :: vec3_line fmt e.rotation.x e.rotation.y e.rotation.z
          :: (es.map (entity_lines fmt)).flatten := rfl
    rw [e0, spec_records]
    rw [ih (fun x hx => h x (List.mem_cons_of_mem _ hx)),
      read_vec3_vec3_line tok fmt _ _ _ p1 p2, read_vec3_vec3_line tok fmt _ _ _ s1 s2,
      read_vec3_vec3_line tok fmt _ _ _ r1 r2]
    rfl

theorem Arena.first_free_after_occupied {α : Type} (done : List (Entity α)) (rest : Arena α) :
    Arena.first_free (done.map some ++ none :: rest) = some done.length := by
  induction done with
  | nil => rfl
  | cons e done ih =>
    have e0 : (e :: done).map some ++ none :: rest
        = some e :: (done.map some ++ none :: rest) := rfl
    rw [e0, Arena.first_free, ih]
    rfl

theorem Arena.set_after_occupied {α : Type} (done : List (Entity α)) (rest : Arena α)
    (x y : Option (Entity α)) :
    (done.map some ++ x :: rest).set done.length y = done.map some ++ y :: rest := by
  induction done with
  | nil => rfl
  | cons e done ih =>
    simp only [List.map_cons, List.cons_append, List.length_cons, List.set_cons_succ, ih]

theorem create_all_first_free {α : Type} (P : Pool α) (qc : Vec3 α → Quat α)
    (halloc : ∀ b : Arena α, P.alloc b = Arena.first_free b) (cam : CameraEntity α)
    (ds : List (Descriptor α)) :
    (∀ d ∈ ds, d.name ≠ "Camera".toList) →
    ∀ (done : List (Entity α)) (k : Nat), ds.length ≤ k →
      create_all P qc ds ⟨done.map some ++ List.replicate k none, cam⟩
        = some ⟨(done ++ ds.map (Descriptor.entity qc)).map some
            ++ List.replicate (k - ds.length) none, cam⟩ := by
  induction ds with
  | nil => intro _ done k _; simp [create_all]
  | cons d ds ih =>
    intro hname done k hk
    obtain ⟨k1, rfl⟩ : ∃ k1, k = k1 + 1 := ⟨k - 1, by
      simp only [List.length_cons] at hk; omega⟩
    have hd : d.name ≠ "Camera".toList := hname d (List.mem_cons_self _ _)
    have hfree : Arena.at (done.map some ++ none :: List.replicate k1 none) done.length = none := by
      have := Arena.at_append_cons (done.map some) (List.replicate k1 none) (none : Option (Entity α))
      simpa using this
    have hstep := create_entity_other_eq P qc d.name hd d.mesh d.pos d.scale d.rot
      ⟨done.map some ++ none :: List.replicate k1 none, cam⟩ done.length
      (by rw [halloc]; exact Arena.first_free_after_occupied done _)
      (by simp) hfree
    have hrep : List.replicate (k1 + 1) (none : Option (Entity α))
        = none :: List.replicate k1 none := rfl
    rw [create_all, hrep, hstep]
    simp only [Arena.set_after_occupied]
    have h2 := ih (fun x hx => hname x (List.mem_cons_of_mem _ hx))
      (done ++ [Descriptor.entity qc d]) k1 (by simp only [List.length_cons] at hk; omega)
    have e1 : (done ++ [Descriptor.entity qc d]).map some ++ List.replicate k1 none
        = done.map some ++ some ⟨d.name, d.mesh, d.pos, d.scale, qc d.rot⟩
            :: List.replicate k1 none := by
      simp [Descriptor.entity]
    rw [e1] at h2
    rw [h2]
    simp

theorem read_type_cube (name : List Char) :
    _read_type name = some MeshRef.cube ↔ name = "Cube".toList := by
  unfold _read_type
  by_cases h1 : name = "Cube".toList
  · rw [if_pos h1]; exact ⟨fun _ => h1, fun _ => rfl⟩
  · rw [if_neg h1]
    by_cases h2 : name = "Quad".toList
    · rw [if_pos h2]; exact ⟨fun h => (by cases h), fun h => absurd h h1⟩
    · rw [if_neg h2]
      by_cases h3 : name = "Sphere".toList
      · rw [if_pos h3]; exact ⟨fun h => (by cases h), fun h => absurd h h1⟩
      · rw [if_neg h3]; exact ⟨fun h => (by cases h), fun h => absurd h h1⟩

theorem read_type_quad (name : List Char) :
    _read_type name = some MeshRef.quad ↔ name = "Quad".toList := by
  unfold _read_type
  by_cases h1 : name = "Cube".toList
  · rw [if_pos h1]; subst h1; decide
  · rw [if_neg h1]
    by_cases h2 : name = "Quad".toList
    · rw [if_pos h2]; exact ⟨fun _ => h2, fun _ => rfl⟩
    · rw [if_neg h2]
      by_cases h3 : name = "Sphere".toList
      · rw [if_pos h3]; exact ⟨fun h => (by cases h), fun h => absurd h h2⟩
      · rw [if_neg h3]; exact ⟨fun h => (by cases h), fun h => absurd h h2⟩

theorem read_type_sphere (name : List Char) :
    _read_type name = some MeshRef.sphere ↔ name = "Sphere".toList := by
  unfold _read_type
  by_cases h1 : name = "Cube".toList
  · rw [if_pos h1]; subst h1; decide
  · rw [if_neg h1]
    by_cases h2 : name = "Quad".toList
    · rw [if_pos h2]; subst h2; decide
    · rw [if_neg h2]
      by_cases h3 : name = "Sphere".toList
      · rw [if_pos h3]; exact ⟨fun _ => h3, fun _ => rfl⟩
      · rw [if_neg h3]; exact ⟨fun h => (by cases h), fun h => absurd h h3⟩

theorem load_scene_eq_create_all {α : Type} [Zero α] (P : Pool α) (qc : Vec3 α → Quat α)
    (tok : List Char → α) (lines : List (List Char)) (w : World α) :
    load_scene P qc tok (some lines) w
      = create_all P qc (spec_records tok (lines.filter is_record_line)) w := by
  unfold load_scene
  simp only
  rw [load_lines_filter]
  exact load_lines_records P qc tok _ LoadLocals.init w
    (fun x hx => (List.mem_filter.mp hx).2) rfl

theorem load_saved_scene {α : Type} [Zero α] (P : Pool α) (qc : Vec3 α → Quat α)
    (tok : List Char → α) (fmt : α → List Char) (a : Arena α) (cap : Nat)
    (cam : CameraEntity α)
    (halloc : ∀ b : Arena α, P.alloc b = Arena.first_free b)
    (hsav : ∀ e ∈ a.occupants, savable fmt e = true)
    (hcap : a.occupants.length ≤ cap) :
    load_scene P qc tok (some (getlines (save_scene fmt a))) ⟨List.replicate cap none, cam⟩
      = some ⟨((a.occupants.map (saved_record tok fmt)).map (Descriptor.entity qc)).map some
          ++ List.replicate (cap - a.occupants.length) none, cam⟩ := by
  rw [load_scene_eq_create_all, save_scene_eq, getlines_saved fmt _ hsav,
    List.filter_eq_self.mpr (saved_lines_are_records fmt _ hsav),
    spec_records_saved tok fmt _ hsav]
  have h := create_all_first_free P qc halloc cam (a.occupants.map (saved_record tok fmt))
    (by
      intro d hd
      obtain ⟨e, he, rfl⟩ := List.mem_map.mp hd
      exact (savable_spec fmt e (hsav e he)).2.2.1)
    [] cap (by simpa using hcap)
  simpa using h

/-! ## The claims about the scene loader -/

/-- C3: `load_scene` ignores the lines that are empty or start with `#`; with `k` lines
remaining it makes exactly `k / 4` `_create_entity` calls, in file order, the `j`-th with
the record built from remaining lines `4j`, `4j+1`, `4j+2`, `4j+3` as type name, position,
scale and rotation; a trailing group of one to three lines makes no call. -/
theorem load_scene_records {α : Type} [Zero α] (P : Pool α) (qc : Vec3 α → Quat α)
    (tok : List Char → α) (lines : List (List Char)) (w : World α) :
    (∀ line, is_record_line line = false ↔ (line = [] ∨ line.head? = some '#'))
    ∧ load_scene P qc tok (some lines) w
        = create_all P qc (spec_records tok (lines.filter is_record_line)) w
    ∧ (spec_records tok (lines.filter is_record_line)).length
        = (lines.filter is_record_line).length / 4
    ∧ ∀ j, j < (lines.filter is_record_line).length / 4 →
        (spec_records tok (lines.filter is_record_line)).get? j
          = some (record_of tok
              ((lines.filter is_record_line).getD (4 * j) [])
              ((lines.filter is_record_line).getD (4 * j + 1) [])
              ((lines.filter is_record_line).getD (4 * j + 2) [])
              ((lines.filter is_record_line).getD (4 * j + 3) [])) := by
  refine ⟨?_, ?_, spec_records_length tok _, spec_records_get tok _⟩
  · intro line
    cases line with
    | nil => simp [is_record_line]
    | cons c t => simp [is_record_line]
  · exact load_scene_eq_create_all P qc tok lines w

/-- C3, run on a file with a comment, a blank line, one full record and two left-over
lines. -/
theorem load_scene_records_witness :
    (0 < (["# scene".toList, "Cube".toList, [], "0 0 -5 ".toList, "1 1 1 ".toList,
        "0 0 0 ".toList, "Quad".toList, "1 2 3 ".toList].filter is_record_line).length / 4)
    ∧ (spec_records intToken (["# scene".toList, "Cube".toList, [], "0 0 -5 ".toList,
        "1 1 1 ".toList, "0 0 0 ".toList, "Quad".toList,
        "1 2 3 ".toList].filter is_record_line)).get? 0
        = some ⟨"Cube".toList, some MeshRef.cube, ⟨0, 0, -5⟩, ⟨1, 1, 1⟩, ⟨0, 0, 0⟩⟩ :=
  ⟨by decide,
   ((load_scene_records lowestSlotPool intQuatCast intToken
      ["# scene".toList, "Cube".toList, [], "0 0 -5 ".toList, "1 1 1 ".toList,
        "0 0 0 ".toList, "Quad".toList, "1 2 3 ".toList] ownCameraWorld).2.2.2 0
      (by decide)).trans (by decide)⟩

/-- C4 as stated fails when the camera's entity lives in the pool: the "Camera" record
rewrites that pool entity, so not every pool entity is unchanged. -/
theorem camera_record_rewrites_pool_entity :
    _create_entity lowestSlotPool intQuatCast "Camera".toList none
        ⟨4, 5, 6⟩ ⟨1, 1, 1⟩ ⟨0, 0, 0⟩ pooledCameraWorld
      = some ⟨[some ⟨"Camera".toList, none, ⟨4, 5, 6⟩, ⟨1, 1, 1⟩, ⟨0, 0, 0, 1⟩⟩,
          some cubeEntity, none], CameraEntity.slot 0⟩
    ∧ Arena.at pooledCameraWorld.entities 0 = some cameraEntity
    ∧ (some ⟨"Camera".toList, none, ⟨4, 5, 6⟩, ⟨1, 1, 1⟩, ⟨0, 0, 0, 1⟩⟩ : Option (Entity Int))
        ≠ some cameraEntity := by
  decide

/-- C4 (amended): for a record named "Camera", `_create_entity` writes the record's name,
mesh, position, scale and rotation into the existing camera entity and does not call
`create()` (the result does not depend on the pool's allocator); the set of occupied
slots is unchanged, every slot other than the camera entity's own is unchanged, and when
the camera entity is a dedicated object outside the pool the whole pool is unchanged. -/
theorem create_entity_camera {α : Type} (P : Pool α) (qc : Vec3 α → Quat α)
    (mesh : Option MeshRef) (pos scale rot : Vec3 α) (w : World α) (cam : Entity α)
    (hcam : w.camera = some cam) :
    ∃ w1, _create_entity P qc "Camera".toList mesh pos scale rot w = some w1
      ∧ w1.camera = some ⟨"Camera".toList, mesh, pos, scale, qc rot⟩
      ∧ w1.entities.map Option.isSome = w.entities.map Option.isSome
      ∧ (∀ j, w.camera_entity ≠ CameraEntity.slot j → w1.entities.get? j = w.entities.get? j)
      ∧ (∀ e, w.camera_entity = CameraEntity.own e → w1.entities = w.entities)
      ∧ (∀ P1 : Pool α, _create_entity P1 qc "Camera".toList mesh pos scale rot w = some w1) := by
  have key := fun P1 : Pool α => camera_record_unfold P1 qc mesh pos scale rot w
  cases hce : w.camera_entity with
  | own e =>
    refine ⟨World.mk w.entities (CameraEntity.own ⟨"Camera".toList, mesh, pos, scale, qc rot⟩),
      ?_, ?_, rfl, ?_, ?_, ?_⟩
    · rw [key P]; simp [hce]
    · simp [World.camera]
    · intro j _; rfl
    · intro _ _; rfl
    · intro P1; rw [key P1]; simp [hce]
  | slot i =>
    have hat : w.entities.at i = some cam := by
      simpa [World.camera, hce] using hcam
    have hi := Arena.lt_of_at_eq_some _ _ _ hat
    refine ⟨World.mk (w.entities.set i (some ⟨"Camera".toList, mesh, pos, scale, qc rot⟩))
      w.camera_entity, ?_, ?_, ?_, ?_, ?_, ?_⟩
    · rw [key P]; simp [hce, hat]
    · simp only [World.camera, hce]
      exact Arena.at_set_self _ _ _ hi
    · exact Arena.isSome_set_occupied _ _ _ _ hat
    · intro j hj
      exact Arena.get?_set_ne _ _ _ _ (fun h => hj (by rw [h]))
    · intro e he; cases he
    · intro P1; rw [key P1]; simp [hce, hat]

/-- C4 (amended), run on a world whose camera entity is in slot 0 of the pool. -/
theorem create_entity_camera_witness :
    pooledCameraWorld.camera = some cameraEntity
    ∧ ∃ w1, _create_entity lowestSlotPool intQuatCast "Camera".toList none
          ⟨4, 5, 6⟩ ⟨1, 1, 1⟩ ⟨0, 0, 0⟩ pooledCameraWorld = some w1
      ∧ w1.camera = some ⟨"Camera".toList, none, ⟨4, 5, 6⟩, ⟨1, 1, 1⟩, intQuatCast ⟨0, 0, 0⟩⟩
      ∧ w1.entities.map Option.isSome = pooledCameraWorld.entities.map Option.isSome
      ∧ (∀ j, pooledCameraWorld.camera_entity ≠ CameraEntity.slot j →
          w1.entities.get? j = pooledCameraWorld.entities.get? j)
      ∧ (∀ e, pooledCameraWorld.camera_entity = CameraEntity.own e →
          w1.entities = pooledCameraWorld.entities)
      ∧ (∀ P1 : Pool Int, _create_entity P1 intQuatCast "Camera".toList none
          ⟨4, 5, 6⟩ ⟨1, 1, 1⟩ ⟨0, 0, 0⟩ pooledCameraWorld = some w1) :=
  ⟨by decide,
   create_entity_camera lowestSlotPool intQuatCast none ⟨4, 5, 6⟩ ⟨1, 1, 1⟩ ⟨0, 0, 0⟩
     pooledCameraWorld cameraEntity (by decide)⟩

/-- C5 as stated fails: on a pool without an empty slot `create()` hands out nothing, for
any allocator, and loading the record `Cube` creates no pool entry. -/
theorem create_entity_on_full_pool :
    ("Cube".toList ≠ "Camera".toList)
    ∧ (∀ i, i < fullPoolWorld.entities.capacity → (fullPoolWorld.entities.at i).isSome = true)
    ∧ _create_entity lowestSlotPool intQuatCast "Cube".toList (_read_type "Cube".toList)
        ⟨1, 2, 3⟩ ⟨1, 1, 1⟩ ⟨0, 0, 0⟩ fullPoolWorld = none
    ∧ (∀ P : Pool Int, _create_entity P intQuatCast "Cube".toList (_read_type "Cube".toList)
        ⟨1, 2, 3⟩ ⟨1, 1, 1⟩ ⟨0, 0, 0⟩ fullPoolWorld = none) := by
  refine ⟨by decide, by decide, by decide, ?_⟩
  intro P
  have hfull : ∀ i, i < fullPoolWorld.entities.length →
      Arena.at fullPoolWorld.entities i ≠ none := by decide
  have hnone : Arena.create P fullPoolWorld.entities = none := by
    cases h : Arena.create P fullPoolWorld.entities with
    | none => rfl
    | some x =>
      obtain ⟨i, _, hi, hfree⟩ :=
        (create_isSome_iff P fullPoolWorld.entities).mp (by rw [h]; rfl)
      exact absurd hfree (hfull i hi)
  unfold _create_entity
  rw [if_neg (by decide), hnone]

/-- C5 (amended): for a record whose type name is not "Camera", when the pool's `create()`
succeeds (it has an empty slot to hand out), loading the record fills exactly one
previously empty slot `i` with an entity carrying the record's name, position, scale and
rotation, every other slot and the camera pointer being untouched; the mesh is the shared
cube, quad or sphere mesh exactly for the names "Cube", "Quad", "Sphere" and absent for
every other name. -/
theorem create_entity_new_entry {α : Type} (P : Pool α) (qc : Vec3 α → Quat α)
    (name : List Char) (pos scale rot : Vec3 α) (w : World α)
    (hname : name ≠ "Camera".toList) (hcreate : (Arena.create P w.entities).isSome = true) :
    (∃ i, i < w.entities.capacity ∧ w.entities.at i = none
      ∧ _create_entity P qc name (_read_type name) pos scale rot w
          = some ⟨w.entities.set i (some ⟨name, _read_type name, pos, scale, qc rot⟩),
              w.camera_entity⟩
      ∧ Arena.at (w.entities.set i (some ⟨name, _read_type name, pos, scale, qc rot⟩)) i
          = some ⟨name, _read_type name, pos, scale, qc rot⟩
      ∧ ∀ j, j ≠ i →
          (w.entities.set i (some ⟨name, _read_type name, pos, scale, qc rot⟩)).get? j
            = w.entities.get? j)
    ∧ (_read_type name = some MeshRef.cube ↔ name = "Cube".toList)
    ∧ (_read_type name = some MeshRef.quad ↔ name = "Quad".toList)
    ∧ (_read_type name = some MeshRef.sphere ↔ name = "Sphere".toList)
    ∧ (name ≠ "Cube".toList → name ≠ "Quad".toList → name ≠ "Sphere".toList →
        _read_type name = none) := by
  refine ⟨?_, ?_, ?_, ?_, ?_⟩
  · obtain ⟨i, halloc, hi, hfree⟩ := (create_isSome_iff P w.entities).mp hcreate
    refine ⟨i, hi, hfree, ?_, Arena.at_set_self _ _ _ hi, ?_⟩
    · exact create_entity_other_eq P qc name hname _ pos scale rot w i halloc hi hfree
    · intro j hj
      exact Arena.get?_set_ne _ _ _ _ hj
  · exact read_type_cube name
  · exact read_type_quad name
  · exact read_type_sphere name
  · intro h1 h2 h3
    unfold _read_type
    rw [if_neg h1, if_neg h2, if_neg h3]

/-- C5 (amended), run on the record `cube` (lower case) loaded into a pool with two empty
slots. -/
theorem create_entity_new_entry_witness :
    ("cube".toList ≠ "Camera".toList)
    ∧ ((Arena.create lowestSlotPool ownCameraWorld.entities).isSome = true)
    ∧ ((∃ i, i < ownCameraWorld.entities.capacity ∧ ownCameraWorld.entities.at i = none
        ∧ _create_entity lowestSlotPool intQuatCast "cube".toList (_read_type "cube".toList)
            ⟨0, 0, -5⟩ ⟨1, 1, 1⟩ ⟨0, 0, 0⟩ ownCameraWorld
          = some ⟨ownCameraWorld.entities.set i (some ⟨"cube".toList, _read_type "cube".toList,
              ⟨0, 0, -5⟩, ⟨1, 1, 1⟩, intQuatCast ⟨0, 0, 0⟩⟩), ownCameraWorld.camera_entity⟩
        ∧ Arena.at (ownCameraWorld.entities.set i (some ⟨"cube".toList,
              _read_type "cube".toList, ⟨0, 0, -5⟩, ⟨1, 1, 1⟩, intQuatCast ⟨0, 0, 0⟩⟩)) i
          = some ⟨"cube".toList, _read_type "cube".toList, ⟨0, 0, -5⟩, ⟨1, 1, 1⟩,
              intQuatCast ⟨0, 0, 0⟩⟩
        ∧ ∀ j, j ≠ i →
            (ownCameraWorld.entities.set i (some ⟨"cube".toList, _read_type "cube".toList,
              ⟨0, 0, -5⟩, ⟨1, 1, 1⟩, intQuatCast ⟨0, 0, 0⟩⟩)).get? j
              = ownCameraWorld.entities.get? j)
      ∧ (_read_type "cube".toList = some MeshRef.cube ↔ "cube".toList = "Cube".toList)
      ∧ (_read_type "cube".toList = some MeshRef.quad ↔ "cube".toList = "Quad".toList)
      ∧ (_read_type "cube".toList = some MeshRef.sphere ↔ "cube".toList = "Sphere".toList)
      ∧ ("cube".toList ≠ "Cube".toList → "cube".toList ≠ "Quad".toList →
          "cube".toList ≠ "Sphere".toList → _read_type "cube".toList = none)) :=
  ⟨by decide, by decide,
   create_entity_new_entry lowestSlotPool intQuatCast "cube".toList ⟨0, 0, -5⟩ ⟨1, 1, 1⟩
     ⟨0, 0, 0⟩ ownCameraWorld (by decide) (by decide)⟩

/-- C6: on a line of three tokens `a`, `b`, `c` separated by single spaces, with or
without one trailing space, `_read_vec3` returns `(atof a, atof b, atof c)`. The first two
tokens are delimited by the spaces the loop stops at; the third is the rest of the line. -/
theorem read_vec3_three_tokens {α : Type} [Zero α] (tok : List Char → α) (a b c : List Char)
    (ha : ∀ ch ∈ a, ch ≠ ' ') (hb : ∀ ch ∈ b, ch ≠ ' ') :
    _read_vec3 tok (a ++ ' ' :: b ++ ' ' :: c) = ⟨atof tok a, atof tok b, atof tok c⟩
    ∧ _read_vec3 tok (a ++ ' ' :: b ++ ' ' :: c ++ [' '])
        = ⟨atof tok a, atof tok b, atof tok c⟩ := by
  constructor
  · rw [read_vec3_two_spaces tok a b c ha hb]
    simp [atof_cons_space]
  · have e : a ++ ' ' :: b ++ ' ' :: c ++ [' '] = a ++ ' ' :: b ++ ' ' :: (c ++ [' ']) := by
      simp
    rw [e, read_vec3_two_spaces tok a b (c ++ [' ']) ha hb]
    simp [atof_cons_space, atof_append_space]

/-- C6, run on the tokens `12`, `-7`, `3`. -/
theorem read_vec3_three_tokens_witness :
    (∀ ch ∈ "12".toList, ch ≠ ' ') ∧ (∀ ch ∈ "-7".toList, ch ≠ ' ')
    ∧ _read_vec3 intToken ("12".toList ++ ' ' :: "-7".toList ++ ' ' :: "3".toList)
        = ⟨atof intToken "12".toList, atof intToken "-7".toList, atof intToken "3".toList⟩
    ∧ _read_vec3 intToken ("12".toList ++ ' ' :: "-7".toList ++ ' ' :: "3".toList ++ [' '])
        = ⟨atof intToken "12".toList, atof intToken "-7".toList, atof intToken "3".toList⟩ :=
  ⟨by decide, by decide,
   read_vec3_three_tokens intToken "12".toList "-7".toList "3".toList
     (by decide) (by decide)⟩

/-- C10 as stated fails: the two-token line `7 8` does not leave the vector at its
default, its first component is set from the line. -/
theorem read_vec3_two_tokens_sets_x :
    (space_tokens "7 8".toList).length < 3
    ∧ _read_vec3 intToken "7 8".toList = ⟨7, 0, 0⟩
    ∧ _read_vec3 intToken "7 8".toList ≠ Vec3.default := by
  decide

/-- C10 (amended): `_read_vec3` reports no error on a short line and leaves at the default
`0` the components the line does not reach: a line without any space returns `(0, 0, 0)`;
a line with exactly one space returns `(atof p, 0, 0)`, `p` being the text before the
space; a line `p q ` of two tokens and a trailing space returns `(atof p, atof q, atof "")`.
-/
theorem read_vec3_short_line {α : Type} [Zero α] (tok : List Char → α) (p q : List Char)
    (hp : ∀ ch ∈ p, ch ≠ ' ') (hq : ∀ ch ∈ q, ch ≠ ' ') :
    _read_vec3 tok p = Vec3.default
    ∧ _read_vec3 tok (p ++ ' ' :: q) = ⟨atof tok p, 0, 0⟩
    ∧ _read_vec3 tok (p ++ ' ' :: q ++ [' ']) = ⟨atof tok p, atof tok q, atof tok []⟩ := by
  refine ⟨?_, ?_, ?_⟩
  · unfold _read_vec3
    have h := read_vec3_loop_skip_of_eq tok p [] p [] (by simp) hp 0
      (Vec3.default : Vec3 α) 0 0
    simp only [List.length_nil, Nat.add_zero] at h
    rw [h]
    rfl
  · unfold _read_vec3
    generalize hL : p ++ ' ' :: q = L
    have hlen : L.length = p.length + (q.length + 1) := by
      subst hL; simp only [List.length_append, List.length_cons]
    have s1 := read_vec3_loop_skip_of_eq tok L [] p (' ' :: q) (by subst hL; simp) hp
      (q.length + 1) (Vec3.default : Vec3 α) 0 0
    have s2 := read_vec3_loop_space_of_eq tok L p q (by subst hL; rfl) q.length
      (Vec3.default : Vec3 α) 0 0
    have s3 := read_vec3_loop_skip_of_eq tok L (p ++ [' ']) q [] (by subst hL; simp) hq 0
      ((Vec3.default : Vec3 α).set 0 (atof tok (substr L 0 (p.length - 0)))) p.length 1
    have e1 : substr L 0 (p.length - 0) = p := by
      subst hL; exact substr_front p _
    simp only [List.length_nil, Nat.zero_add] at s1
    simp only [Nat.zero_add, if_neg (by decide : ¬ (1 = 2))] at s2
    simp only [List.length_append, List.length_singleton, Nat.add_zero] at s3
    rw [hlen, s1, s2, s3, e1]
    simp [_read_vec3_loop, Vec3.set, Vec3.default]
  · have e : p ++ ' ' :: q ++ [' '] = p ++ ' ' :: q ++ ' ' :: [] := rfl
    rw [e, read_vec3_two_spaces tok p q [] hp hq]
    simp only [atof_cons_space]

/-- C10 (amended), run on the lines `78`, `78 9` and `78 9 `. -/
theorem read_vec3_short_line_witness :
    (∀ ch ∈ "78".toList, ch ≠ ' ') ∧ (∀ ch ∈ "9".toList, ch ≠ ' ')
    ∧ _read_vec3 intToken "78".toList = Vec3.default
    ∧ _read_vec3 intToken ("78".toList ++ ' ' :: "9".toList)
        = ⟨atof intToken "78".toList, 0, 0⟩
    ∧ _read_vec3 intToken ("78".toList ++ ' ' :: "9".toList ++ [' '])
        = ⟨atof intToken "78".toList, atof intToken "9".toList, atof intToken []⟩ :=
  ⟨by decide, by decide,
   read_vec3_short_line intToken "78".toList "9".toList (by decide) (by decide)⟩

/-- C7 as stated fails: a pool holding two entities, one of them named "Camera", is saved
and read back into an empty pool as a single entity. -/
theorem save_load_loses_camera_named_entity :
    (Arena.occupants [some cameraEntity, some cubeEntity]).length = 2
    ∧ load_scene lowestSlotPool intQuatCast intToken
        (some (getlines (save_scene intFmt [some cameraEntity, some cubeEntity])))
        ⟨[none, none], CameraEntity.own sphereEntity⟩
      = some ⟨[some cubeEntity, none], CameraEntity.own cameraEntity⟩
    ∧ (Arena.occupants [some cubeEntity, (none : Option (Entity Int))]).length = 1 := by
  decide

/-- C7 (amended): for a pool all of whose occupants are savable (name a record line of its
own and not "Camera", numbers printed as plain tokens), with `create()` handing out the
lowest empty slot, saving it and loading the text into an empty pool with room for them
rebuilds as many entities, in the same order, in the first slots; each has the original's
name, the mesh its name designates, and position and scale equal to the originals as
printed and read back by `atof`. The camera entity is untouched. -/
theorem save_load_roundtrip {α : Type} [Zero α] (P : Pool α) (qc : Vec3 α → Quat α)
    (tok : List Char → α) (fmt : α → List Char) (a : Arena α) (cap : Nat)
    (cam : CameraEntity α)
    (halloc : ∀ b : Arena α, P.alloc b = Arena.first_free b)
    (hsav : ∀ e ∈ a.occupants, savable fmt e = true)
    (hcap : a.occupants.length ≤ cap) :
    ∃ es : List (Entity α),
      load_scene P qc tok (some (getlines (save_scene fmt a))) ⟨List.replicate cap none, cam⟩
        = some ⟨es.map some ++ List.replicate (cap - a.occupants.length) none, cam⟩
      ∧ es.length = a.occupants.length
      ∧ List.Forall₂ (reloads_as tok fmt) a.occupants es := by
  refine ⟨(a.occupants.map (saved_record tok fmt)).map (Descriptor.entity qc),
    load_saved_scene P qc tok fmt a cap cam halloc hsav hcap, by simp, ?_⟩
  rw [List.map_map, List.forall₂_map_right_iff]
  exact List.forall₂_same.mpr (fun e _ => ⟨rfl, rfl, rfl, rfl⟩)

/-- C7 (amended), run on a pool holding a cube, an empty slot and a sphere. -/
theorem save_load_roundtrip_witness :
    (∀ b : Arena Int, lowestSlotPool.alloc b = Arena.first_free b)
    ∧ (∀ e ∈ Arena.occupants [some cubeEntity, none, some sphereEntity],
        savable intFmt e = true)
    ∧ ((Arena.occupants [some cubeEntity, none, some sphereEntity]).length ≤ 3)
    ∧ ∃ es : List (Entity Int),
        load_scene lowestSlotPool intQuatCast intToken
            (some (getlines (save_scene intFmt [some cubeEntity, none, some sphereEntity])))
            ⟨List.replicate 3 none, CameraEntity.own cameraEntity⟩
          = some ⟨es.map some ++ List.replicate
              (3 - (Arena.occupants [some cubeEntity, none, some sphereEntity]).length) none,
              CameraEntity.own cameraEntity⟩
        ∧ es.length = (Arena.occupants [some cubeEntity, none, some sphereEntity]).length
        ∧ List.Forall₂ (reloads_as intToken intFmt)
            (Arena.occupants [some cubeEntity, none, some sphereEntity]) es :=
  ⟨fun _ => rfl, by decide, by decide,
   save_load_roundtrip lowestSlotPool intQuatCast intToken intFmt
     [some cubeEntity, none, some sphereEntity] 3 (CameraEntity.own cameraEntity)
     (fun _ => rfl) (by decide) (by decide)⟩

/-! ### Facts about the frame -/

theorem range_filterMap_at {α β : Type} (g : Option (Entity α) → Option β) (a : Arena α) :
    (List.range a.length).filterMap (fun i => g (a.at i)) = a.filterMap g := by
  induction a with
  | nil => rfl
  | cons x a ih =>
    rw [List.length_cons, List.range_succ_eq_map, List.filterMap_cons, List.filterMap_map,
      List.filterMap_cons]
    have h0 : Arena.at (x :: a) 0 = x := rfl
    have hs : ((fun i => g (Arena.at (x :: a) i)) ∘ Nat.succ) = fun i => g (Arena.at a i) := rfl
    rw [h0, hs, ih]

theorem is_draw_draw_call (m : Mesh) : (draw_call m).is_draw = true := by
  unfold draw_call
  split <;> rfl

theorem filter_draw_scene_pass_body {α : Type} (meshes : MeshRef → Mesh)
    (x : Option (Entity α)) :
    (scene_pass_body meshes x).filter GLCall.is_draw = (slot_draw meshes x).toList := by
  cases x with
  | none => rfl
  | some e =>
    cases hm : e.mesh with
    | none => simp [scene_pass_body, slot_draw, hm]
    | some m =>
      simp only [scene_pass_body, slot_draw, hm, Option.map_some', Option.toList]
      unfold draw_call
      split <;> rfl

theorem filterMap_eq_flatten_toList {γ β : Type} (g : γ → Option β) (l : List γ) :
    l.filterMap g = (l.map (fun x => (g x).toList)).flatten := by
  induction l with
  | nil => rfl
  | cons x l ih =>
    rw [List.filterMap_cons, List.map_cons, List.flatten_cons, ← ih]
    cases g x <;> rfl

theorem scene_pass_eq {α : Type} (meshes : MeshRef → Mesh) (entities : Arena α) :
    scene_pass meshes entities = (entities.map (scene_pass_body meshes)).flatten := by
  unfold scene_pass
  exact Arena.for_loop_eq _ _

theorem spec_scene_draws_eq {α : Type} (meshes : MeshRef → Mesh) (entities : Arena α) :
    spec_scene_draws meshes entities = entities.filterMap (slot_draw meshes) := by
  unfold spec_scene_draws Arena.capacity
  exact range_filterMap_at (slot_draw meshes) entities

theorem filter_draw_scene_pass {α : Type} (meshes : MeshRef → Mesh) (entities : Arena α) :
    (scene_pass meshes entities).filter GLCall.is_draw = spec_scene_draws meshes entities := by
  rw [scene_pass_eq, spec_scene_draws_eq, filterMap_eq_flatten_toList]
  induction entities with
  | nil => rfl
  | cons x a ih =>
    rw [List.map_cons, List.flatten_cons, List.filter_append, ih,
      filter_draw_scene_pass_body, List.map_cons, List.flatten_cons]

theorem draws_in_state_append (debug : GLState → GLState) (l1 l2 : List GLCall) :
    ∀ s : GLState,
      draws_in_state debug s (l1 ++ l2)
        = draws_in_state debug s l1 ++ draws_in_state debug (GLState.run debug s l1) l2 := by
  induction l1 with
  | nil => intro s; rfl
  | cons c l1 ih =>
    intro s
    have e : c :: l1 ++ l2 = c :: (l1 ++ l2) := rfl
    have hr : GLState.run debug s (c :: l1) = GLState.run debug (GLState.step debug s c) l1 := rfl
    rw [e, draws_in_state, draws_in_state, ih, hr]
    split <;> rfl

theorem run_append (debug : GLState → GLState) (s : GLState) (l1 l2 : List GLCall) :
    GLState.run debug s (l1 ++ l2) = GLState.run debug (GLState.run debug s l1) l2 := by
  simp [GLState.run, List.foldl_append]

theorem run_scene_pass_body {α : Type} (debug : GLState → GLState) (meshes : MeshRef → Mesh)
    (s : GLState) (x : Option (Entity α)) :
    GLState.run debug s (scene_pass_body meshes x) = s := by
  cases x with
  | none => rfl
  | some e =>
    cases hm : e.mesh with
    | none => simp [scene_pass_body, hm, GLState.run]
    | some m =>
      simp only [scene_pass_body, hm]
      unfold draw_call
      split <;> rfl

theorem draws_scene_pass_body {α : Type} (debug : GLState → GLState) (meshes : MeshRef → Mesh)
    (s : GLState) (x : Option (Entity α)) :
    draws_in_state debug s (scene_pass_body meshes x)
      = ((slot_draw meshes x).toList).map (fun d => (d, s)) := by
  cases x with
  | none => rfl
  | some e =>
    cases hm : e.mesh with
    | none => simp [scene_pass_body, slot_draw, hm, draws_in_state]
    | some m =>
      simp only [scene_pass_body, slot_draw, hm, Option.map_some', Option.toList]
      unfold draw_call
      split <;> rfl

theorem run_scene_pass {α : Type} (debug : GLState → GLState) (meshes : MeshRef → Mesh)
    (s : GLState) (entities : Arena α) :
    GLState.run debug s (scene_pass meshes entities) = s := by
  rw [scene_pass_eq]
  induction entities with
  | nil => rfl
  | cons x a ih =>
    rw [List.map_cons, List.flatten_cons, run_append, run_scene_pass_body, ih]

theorem draws_scene_pass {α : Type} (debug : GLState → GLState) (meshes : MeshRef → Mesh)
    (s : GLState) (entities : Arena α) :
    draws_in_state debug s (scene_pass meshes entities)
      = (spec_scene_draws meshes entities).map (fun d => (d, s)) := by
  rw [scene_pass_eq, spec_scene_draws_eq, filterMap_eq_flatten_toList]
  induction entities with
  | nil => rfl
  | cons x a ih =>
    rw [List.map_cons, List.flatten_cons, draws_in_state_append, run_scene_pass_body, ih,
      draws_scene_pass_body, List.map_cons, List.flatten_cons, List.map_append]

theorem mem_scene_pass_set_uniform {α : Type} (meshes : MeshRef → Mesh) (entities : Arena α)
    (sel : ShaderSel) (name : String) (v : UniformValue)
    (h : GLCall.set_uniform sel name v ∈ scene_pass meshes entities) :
    sel = ShaderSel.shader
      ∧ ((name = "model" ∧ v = UniformValue.mat4)
        ∨ (name = "normal_matrix" ∧ v = UniformValue.mat3)
        ∨ (name = "color" ∧ v = UniformValue.vec4)) := by
  rw [scene_pass_eq] at h
  obtain ⟨l, hl, hc⟩ := List.mem_flatten.mp h
  obtain ⟨x, _, rfl⟩ := List.mem_map.mp hl
  cases x with
  | none => simp [scene_pass_body] at hc
  | some e =>
    cases hm : e.mesh with
    | none => simp [scene_pass_body, hm] at hc
    | some m =>
      simp only [scene_pass_body, hm, List.mem_cons, List.mem_singleton, List.not_mem_nil,
        or_false] at hc
      rcases hc with hc | hc | hc | hc | hc
      · cases hc; exact ⟨rfl, Or.inl ⟨rfl, rfl⟩⟩
      · cases hc; exact ⟨rfl, Or.inr (Or.inl ⟨rfl, rfl⟩)⟩
      · cases hc; exact ⟨rfl, Or.inr (Or.inr ⟨rfl, rfl⟩)⟩
      · cases hc
      · exfalso
        unfold draw_call at hc
        split at hc <;> cases hc

theorem getLast?_append_some {γ : Type} (l1 l2 : List γ) (x : γ)
    (h : l2.getLast? = some x) : (l1 ++ l2).getLast? = some x := by
  induction l1 with
  | nil => exact h
  | cons c l1 ih =>
    cases hl : l1 ++ l2 with
    | nil => rw [hl] at ih; cases ih
    | cons d t =>
      rw [List.cons_append, hl, List.getLast?_cons_cons, ← hl]
      exact ih

/-! ## The claims about the renderer -/

/-- C1: one call to `Renderer::render` issues, as its scene-pass draw calls, exactly one
draw call for each slot index below the capacity whose slot is occupied by an entity with
a mesh, in ascending index order, and none for an empty slot or an entity without mesh;
the only other draw call of the frame is the screen quad that follows. A pool holding a
single entity with a mesh yields exactly one scene-pass draw call. -/
theorem render_scene_draws {α : Type} [Add α] (ops : CameraOps) (meshes : MeshRef → Mesh)
    (window_size : Int × Int) (entities : Arena α) (r : Renderer α) (delta_time : α) :
    (scene_pass meshes entities).filter GLCall.is_draw = spec_scene_draws meshes entities
    ∧ (r.render ops meshes window_size entities delta_time).2.filter GLCall.is_draw
        = spec_scene_draws meshes entities ++ [draw_call (meshes MeshRef.quad)]
    ∧ slot_draw meshes (none : Option (Entity α)) = none
    ∧ (∀ e : Entity α, e.mesh = none → slot_draw meshes (some e) = none)
    ∧ (∀ (e : Entity α) (m : MeshRef), e.mesh = some m →
        slot_draw meshes (some e) = some (draw_call (meshes m)))
    ∧ (∀ (e : Entity α) (m : MeshRef) (n k : Nat), e.mesh = some m →
        spec_scene_draws meshes (List.replicate n none ++ some e :: List.replicate k none)
          = [draw_call (meshes m)]) := by
  refine ⟨filter_draw_scene_pass meshes entities, ?_, rfl, ?_, ?_, ?_⟩
  · simp only [Renderer.render, List.filter_append, filter_draw_scene_pass]
    unfold draw_call
    split <;> rfl
  · intro e he; simp [slot_draw, he]
  · intro e m he; simp [slot_draw, he]
  · intro e m n k he
    rw [spec_scene_draws_eq, List.filterMap_append, List.filterMap_cons]
    have h1 : ∀ j : Nat, (List.replicate j (none : Option (Entity α))).filterMap
        (slot_draw meshes) = [] := by
      intro j
      induction j with
      | zero => rfl
      | succ j ih => rw [List.replicate_succ, List.filterMap_cons]; exact ih
    simp [h1, slot_draw, he]

/-- C2: in every call to `Renderer::render` each scene-pass draw call is issued with the
offscreen framebuffer bound and depth testing enabled; exactly one further draw call, the
screen quad, follows them, issued with depth testing disabled, framebuffer 0 bound, the
viewport set to the camera's stored `viewport_w` x `viewport_h` at the origin and the
screen shader's program current; the last call of the frame is the buffer swap. -/
theorem render_pass_order {α : Type} [Add α] (debug : GLState → GLState) (s0 : GLState)
    (ops : CameraOps) (meshes : MeshRef → Mesh) (window_size : Int × Int)
    (entities : Arena α) (r : Renderer α) (delta_time : α) :
    draws_in_state debug s0 (r.render ops meshes window_size entities delta_time).2
      = (spec_scene_draws meshes entities).map
          (fun d => (d, (⟨r.framebuffer, true, r.shader.program_id, s0.viewport⟩ : GLState)))
        ++ [(draw_call (meshes MeshRef.quad),
            (⟨0, false, r.screen_shader.program_id,
              (0, 0, (r.render ops meshes window_size entities delta_time).1.camera.viewport_w,
                (r.render ops meshes window_size entities delta_time).1.camera.viewport_h)⟩
              : GLState))]
    ∧ (r.render ops meshes window_size entities delta_time).2.getLast?
        = some GLCall.SDL_GL_SwapWindow
    ∧ (r.render ops meshes window_size entities delta_time).1.camera
        = ops.set_perspective_projection
            (ops.set_viewport r.camera 0 0 window_size.1 window_size.2) := by
  refine ⟨?_, ?_, rfl⟩
  · simp only [Renderer.render]
    rw [draws_in_state_append, draws_in_state_append, run_append, run_scene_pass,
      draws_scene_pass]
    unfold draw_call
    split <;> rfl
  · simp only [Renderer.render]
    exact getLast?_append_some _ _ _ rfl

/-- C8 as stated fails: with GLEW failing and no GPU object created, `initialize` still
runs to its last call and leaves the instance registered. -/
theorem initialize_ignores_failures :
    failingInitEnv.resource_creation_failed = true
    ∧ ( Renderer.initialize storingCameraOps failingInitEnv 800 600
          blankRenderer).instance_registered = true
    ∧ ( Renderer.initialize storingCameraOps failingInitEnv 800 600
          blankRenderer).calls.getLast? = some GLCall.glDrawBuffers
    ∧ ( Renderer.initialize storingCameraOps failingInitEnv 800 600
          blankRenderer).calls.length = 32 := by
  decide

/-- C8 (amended): `initialize` has no abort path. Whatever step fails, it runs to its last
call (`glDrawBuffers`) and leaves `Renderer::instance` registered; a `glewInit` failure is
reported on `stderr` and nothing else is examined. -/
theorem initialize_always_completes {α : Type} (ops : CameraOps) (env : InitEnv)
    (screen_width screen_height : Int) (self : Renderer α) :
    ( Renderer.initialize ops env screen_width screen_height self).instance_registered = true
    ∧ ( Renderer.initialize ops env screen_width screen_height self).calls.getLast?
        = some GLCall.glDrawBuffers
    ∧ (GLCall.fprintf_stderr_glew_error env.glew_err
          ∈ ( Renderer.initialize ops env screen_width screen_height self).calls
        ↔ env.glew_err ≠ 0) := by
  refine ⟨rfl, ?_, ?_⟩
  · simp only [ Renderer.initialize]
    exact getLast?_append_some _ _ _ rfl
  · by_cases h : env.glew_err = 0
    · by_cases hi : env.instance_set = true <;> simp [ Renderer.initialize, Shader.use, h, hi]
    · by_cases hi : env.instance_set = true <;> simp [ Renderer.initialize, Shader.use, h, hi]

/-- C9: after `Renderer::initialize` the scene shader has "model", "view", "projection"
declared as 4x4 matrices, "normal_matrix" as a 3x3 matrix and "color" as a 4-vector, the
screen shader "rendered_texture" as a texture and "time" as a float; every `set_uniform`
call `Renderer::render` makes, for any pool state and any `delta_time`, names a uniform
declared on that shader with the type of the value passed; `render` leaves both
registries as they are. -/
theorem render_sets_declared_uniforms {α : Type} [Add α] (ops : CameraOps) (env : InitEnv)
    (screen_width screen_height : Int) (self : Renderer α) (meshes : MeshRef → Mesh)
    (window_size : Int × Int) (entities : Arena α) (delta_time : α) :
    ( Renderer.initialize ops env screen_width screen_height self).renderer.shader.uniforms
        = [("model", UniformType.Mat4), ("view", UniformType.Mat4),
           ("projection", UniformType.Mat4), ("normal_matrix", UniformType.Mat3),
           ("color", UniformType.Vec4)]
    ∧ ( Renderer.initialize ops env screen_width screen_height
          self).renderer.screen_shader.uniforms
        = [("rendered_texture", UniformType.Texture), ("time", UniformType.Float)]
    ∧ (∀ (sel : ShaderSel) (name : String) (v : UniformValue),
        GLCall.set_uniform sel name v
          ∈ (( Renderer.initialize ops env screen_width screen_height self).renderer.render
              ops meshes window_size entities delta_time).2 →
        (( Renderer.initialize ops env screen_width screen_height self).renderer.select
          sel).accepts name v = true)
    ∧ (( Renderer.initialize ops env screen_width screen_height self).renderer.render
          ops meshes window_size entities delta_time).1.shader
        = ( Renderer.initialize ops env screen_width screen_height self).renderer.shader
    ∧ (( Renderer.initialize ops env screen_width screen_height self).renderer.render
          ops meshes window_size entities delta_time).1.screen_shader
        = ( Renderer.initialize ops env screen_width screen_height
            self).renderer.screen_shader := by
  refine ⟨rfl, rfl, ?_, rfl, rfl⟩
  intro sel name v h
  simp only [Renderer.render, List.mem_append, List.mem_cons, List.mem_singleton,
    List.not_mem_nil, or_false] at h
  rcases h with (h | h) | h
  · rcases h with h | h | h | h | h | h | h <;> first | (cases h; rfl) | cases h
  · obtain ⟨rfl, h | h | h⟩ := mem_scene_pass_set_uniform meshes entities sel name v h
    · obtain ⟨rfl, rfl⟩ := h; rfl
    · obtain ⟨rfl, rfl⟩ := h; rfl
    · obtain ⟨rfl, rfl⟩ := h; rfl
  · rcases h with h | h | h | h | h | h | h | h | h | h
    · cases h
    · cases h; rfl
    · cases h; rfl
    · cases h
    · cases h
    · cases h
    · cases h
    · exfalso
      unfold draw_call at h
      split at h <;> cases h
    · cases h
    · cases h

end WalkingSim
